import Mathlib

/-!
A shallow embedding of the client-side OPC UA protocol engine of
UA-WebApi-StarterKit: the request registry and dispatcher plus session
state machine (`SessionProvider`), the subscription state machine with
its publish loop (`SubscriptionProvider`), and the fixed-capacity
subscription slot table (`SubscriptionAPI`).

Modelling conventions:
* JavaScript `Map`s become association lists (insertion order
  preserved; `set` replaces an existing key, `delete` removes it).
* Fields that can be `undefined` become `Option`.
* JavaScript truthiness tests on numbers and strings become explicit
  `truthyNat` / `truthyStr` checks (`0`, `""` and `undefined` are
  falsy); object fields are truthy exactly when present (`isSome`).
* Functions that in the source send a message over the transport
  instead return the list of messages handed to the transport, in
  order.
* React state setters (`setX(v)`) and the mutable ref `m.current` are
  merged into one explicit state record; effects become step
  functions on that record.
-/

namespace UaGateway

/-- JavaScript truthiness of a possibly-undefined number (`0` and
`undefined` are falsy). -/
def truthyNat : Option Nat → Bool
  | none => false
  | some n => n != 0

/-- JavaScript truthiness of a possibly-undefined string (`""` and
`undefined` are falsy). -/
def truthyStr : Option String → Bool
  | none => false
  | some s => s != ""

/-- `map.get(k)` on the association-list model of a JavaScript `Map`
(first entry with the key; `mapSet` keeps keys unique). -/
def mapGet (k : Nat) : List (Nat × α) → Option α
  | [] => none
  | p :: rest => if p.1 = k then some p.2 else mapGet k rest

/-- `map.has(k)`. -/
def mapHas (k : Nat) (l : List (Nat × α)) : Bool :=
  (mapGet k l).isSome

/-- `map.set(k, v)`: replaces the value when the key is present,
otherwise appends (JavaScript `Map` keeps insertion order). -/
def mapSet (k : Nat) (v : α) (l : List (Nat × α)) : List (Nat × α) :=
  if mapHas k l then l.map (fun p => if p.1 == k then (k, v) else p)
  else l ++ [(k, v)]

/-- `map.delete(k)`. -/
def mapDelete (k : Nat) (l : List (Nat × α)) : List (Nat × α) :=
  l.filter (fun p => p.1 != k)

/-- The service identifiers (`OpcUa.DataTypeIds.*`) that the engine
branches on, plus the reserved `"AASResponse"` marker used for
unsolicited pushes. -/
inductive ServiceId where
  | ReadRequest
  | ReadResponse
  | CreateSessionRequest
  | CreateSessionResponse
  | ActivateSessionRequest
  | ActivateSessionResponse
  | CloseSessionRequest
  | CloseSessionResponse
  | PublishRequest
  | PublishResponse
  | SetPublishingModeRequest
  | SetPublishingModeResponse
  | CreateSubscriptionRequest
  | CreateSubscriptionResponse
  | DeleteSubscriptionsRequest
  | DeleteSubscriptionsResponse
  | TranslateBrowsePathsToNodeIdsRequest
  | TranslateBrowsePathsToNodeIdsResponse
  | CreateMonitoredItemsRequest
  | CreateMonitoredItemsResponse
  | DeleteMonitoredItemsRequest
  | DeleteMonitoredItemsResponse
  | AASResponse
deriving DecidableEq, Repr

/-- `RequestHeader` of an outbound request (`Timestamp`, a `Date` in
the source, is modelled as a number; a present `Date` object is always
truthy, so presence is `isSome`). -/
structure RequestHeader where
  RequestHandle : Option Nat := none
  Timestamp : Option Nat := none
  TimeoutHint : Option Nat := none
  AuthenticationToken : Option String := none
deriving DecidableEq, Repr

/-- Result of the browser primitive `btoa` (external to the
repository): `base64 s` stands for the base64 encoding of `s`. -/
inductive EncodedString where
  | base64 (raw : String)
deriving DecidableEq, Repr

/-- The `IssuedIdentityToken` extension object built by
`activateSession`. -/
structure IssuedIdentityToken where
  PolicyId : Option String := none
  TokenData : EncodedString
deriving DecidableEq, Repr

/-- One `SubscriptionAcknowledgement` (`SubscriptionId` is copied from
the possibly-undefined `m.current.subscriptionId`). -/
structure SubscriptionAcknowledgement where
  SubscriptionId : Option Nat := none
  SequenceNumber : Nat
deriving DecidableEq, Repr

/-- One element of a `RelativePath` built by `translate`.
`HierarchicalReferences` is the reference-type constant from the
`opcua-webapi` library. -/
structure RelativePathElement where
  ReferenceTypeId : String := "i=33"
  IsInverse : Bool := false
  IncludeSubtypes : Bool := true
  TargetName : String
deriving DecidableEq, Repr

/-- One `BrowsePath` of a TranslateBrowsePathsToNodeIds request. -/
structure BrowsePath where
  StartingNode : String
  Elements : List RelativePathElement
deriving DecidableEq, Repr

/-- The `ItemToMonitor` part of a `MonitoredItemCreateRequest`. -/
structure ReadValueId where
  NodeId : Option String := none
  AttributeId : Option Nat := none
deriving DecidableEq, Repr

/-- `RequestedParameters` of a `MonitoredItemCreateRequest`. -/
structure MonitoringParameters where
  ClientHandle : Option Nat := none
  SamplingInterval : Nat
  QueueSize : Nat := 1
  DiscardOldest : Bool := true
deriving DecidableEq, Repr

/-- One `MonitoredItemCreateRequest` (`MonitoringMode.Reporting` is the
numeric constant 2 from the library). -/
structure MonitoredItemCreateRequest where
  ItemToMonitor : ReadValueId
  MonitoringMode : Nat := 2
  RequestedParameters : MonitoringParameters
deriving DecidableEq, Repr

/-- The service-specific fields of an outbound request `Body` (the
`RequestHeader` is kept separately on `RequestMessage`).  Constant
client-description and endpoint-URL strings of `createSession` are
environment data and elided; the numeric constants are kept. -/
inductive RequestBody where
  | createSession (RequestedSessionTimeout : Nat) (MaxResponseMessageSize : Nat)
  | activateSession (LocaleIds : List String) (UserIdentityToken : Option IssuedIdentityToken)
  | closeSession (DeleteSubscriptions : Bool)
  | publish (SubscriptionAcknowledgements : List SubscriptionAcknowledgement)
  | setPublishingMode (PublishingEnabled : Bool) (SubscriptionIds : List Nat)
  | createSubscription (RequestedPublishingInterval : Nat) (RequestedLifetimeCount : Nat)
      (RequestedMaxKeepAliveCount : Nat) (MaxNotificationsPerPublish : Nat)
      (PublishingEnabled : Bool) (Priority : Nat)
  | deleteSubscriptions (SubscriptionIds : List Nat)
  | translateBrowsePaths (BrowsePaths : List BrowsePath)
  | createMonitoredItems (SubscriptionId : Option Nat) (TimestampsToReturn : Nat)
      (ItemsToCreate : List MonitoredItemCreateRequest)
  | deleteMonitoredItems (SubscriptionId : Nat) (MonitoredItemIds : List Nat)
  | emptyBody
deriving DecidableEq, Repr

/-- An outbound request envelope (`IRequestMessage`): `RequestHeader`
and the service-specific fields together form `Body` on the wire. -/
structure RequestMessage where
  ServiceId : ServiceId
  RequestHeader : Option RequestHeader := none
  body : RequestBody := .emptyBody
deriving DecidableEq, Repr

/-- A `ServiceResult` object on a response header (truthy exactly when
present; its `Code` is tested for truthiness separately). -/
structure ServiceResultData where
  Code : Option Nat := none
deriving DecidableEq, Repr

/-- `ResponseHeader` of an inbound response. -/
structure ResponseHeader where
  RequestHandle : Option Nat := none
  ServiceResult : Option ServiceResultData := none
deriving DecidableEq, Repr

/-- The header nested under `Body.RequestHeader` of an unsolicited
`AASResponse` push. -/
structure AASRequestHeader where
  AASRequestHandle : Option Nat := none
deriving DecidableEq, Repr

/-- One `UserIdentityTokens` policy of a server endpoint. -/
structure UserTokenPolicy where
  PolicyId : Option String := none
  IssuedTokenType : Option String := none
deriving DecidableEq, Repr

/-- One entry of `ServerEndpoints` in a CreateSessionResponse. -/
structure EndpointDescription where
  TransportProfileUri : Option String := none
  UserIdentityTokens : Option (List UserTokenPolicy) := none
deriving DecidableEq, Repr

/-- One target of a translate result. -/
structure BrowsePathTarget where
  TargetId : Option String := none
deriving DecidableEq, Repr

/-- One entry of `Results` in a TranslateBrowsePathsToNodeIds
response. -/
structure BrowsePathResult where
  StatusCode : Option Nat := none
  Targets : Option (List BrowsePathTarget) := none
deriving DecidableEq, Repr

/-- One entry of `Results` in a CreateMonitoredItems response. -/
structure MonitoredItemCreateResult where
  StatusCode : Option Nat := none
  MonitoredItemId : Option Nat := none
deriving DecidableEq, Repr

/-- The `NotificationMessage` of a publish response
(`NotificationData` is only ever tested for presence, so its elements
are abstracted to `Unit`). -/
structure NotificationMessageData where
  SequenceNumber : Option Nat := none
  NotificationData : Option (List Unit) := none
deriving DecidableEq, Repr

/-- The `Body` of an inbound response, modelled JSON-style as one
record of optional fields (as a TypeScript cast of the body would see
it).  The wire field `Results` has a service-dependent element type
and is split into `TranslateResults` / `CreateResults`. -/
structure ResponseBodyData where
  ResponseHeader : Option ResponseHeader := none
  RequestHeader : Option AASRequestHeader := none
  AuthenticationToken : Option String := none
  ServerEndpoints : Option (List EndpointDescription) := none
  ServerNonce : Option String := none
  SubscriptionId : Option Nat := none
  AvailableSequenceNumbers : Option (List Nat) := none
  NotificationMessage : Option NotificationMessageData := none
  TranslateResults : Option (List BrowsePathResult) := none
  CreateResults : Option (List MonitoredItemCreateResult) := none
deriving DecidableEq, Repr

/-- An inbound response envelope (`IResponseMessage`). -/
structure ResponseMessage where
  ServiceId : ServiceId
  Body : Option ResponseBodyData := none
deriving DecidableEq, Repr

/-- `ICompletedRequest`: the record stored in the pending-request map
(with `response := none`) and, once correlated, in the completed
queue. -/
structure CompletedEntry where
  callerHandle : Nat
  request : RequestMessage
  response : Option ResponseMessage := none
deriving DecidableEq, Repr

/-- `SessionState` (`service/SessionState.ts`; the values used by the
source plus the spec's `Error`). -/
inductive SessionState where
  | Disconnected
  | Connecting
  | NoSession
  | Creating
  | SessionActive
  | Error
deriving DecidableEq, Repr

/-- The WebSocket ready state from `react-use-websocket`. -/
inductive ReadyState where
  | Uninstantiated
  | Connecting
  | Open
  | Closing
  | Closed
deriving DecidableEq, Repr

/-- `UserLoginStatus` (only `LoggedIn` is inspected by the source). -/
inductive UserLoginStatus where
  | LoggedIn
  | LoggedOut
deriving DecidableEq, Repr

/-- The user context consumed by `SessionProvider`. -/
structure UserEnv where
  loginStatus : UserLoginStatus := .LoggedOut
  accessToken : Option String := none
deriving DecidableEq, Repr

/-- The mutable state of `SessionProvider` (`m.current` merged with
the React state it mirrors), plus `handleCounter`, the threaded state
of the process-wide `HandleFactory`.  AAS push listeners are callbacks
(external I/O); only the table of registered one-shot handles is
state. -/
structure SessionInternals where
  isConnected : Bool := false
  sessionState : SessionState := .Disconnected
  isEnabled : Bool := false
  isSessionEnabled : Bool := false
  requestTimeout : Nat := 60000
  authenticationToken : Option String := none
  serverNonce : Option String := none
  requests : List (Nat × CompletedEntry) := []
  responses : List CompletedEntry := []
  messageCounter : Nat := 0
  aasListenerHandles : List Nat := []
  handleCounter : Nat := 0
deriving DecidableEq, Repr

/-- Modelled from the spec: `HandleFactory.increment()` — the file
`service/HandleFactory.ts` is not among the given sources.  Per §4.1 it
is a process-wide monotonic generator returning a value strictly
greater than every previously returned one; the counter is threaded
explicitly and `increment` returns (new counter, fresh handle). -/
def HandleFactory.increment (counter : Nat) : Nat × Nat :=
  (counter + 1, counter + 1)

/-- `sendRequest` (SessionProvider): ensures a request header exists,
assigns a fresh `RequestHandle`, defaults `Timestamp` (to `now`, the
model of `new Date()`), `TimeoutHint` and `AuthenticationToken` when
not already truthy, records the pending entry keyed by the handle, and
hands the message to the transport (returned). -/
def sendRequest (st : SessionInternals) (now : Nat)
    (request : RequestMessage) (callerHandle : Option Nat) :
    SessionInternals × RequestMessage :=
  let header0 := request.RequestHeader.getD {}
  let (c, h) := HandleFactory.increment st.handleCounter
  let header1 := { header0 with RequestHandle := some h }
  let header2 :=
    if header1.Timestamp.isNone then { header1 with Timestamp := some now } else header1
  let header3 :=
    if truthyNat header2.TimeoutHint then header2
    else { header2 with TimeoutHint := some st.requestTimeout }
  let header4 :=
    if truthyStr header3.AuthenticationToken then header3
    else { header3 with AuthenticationToken := st.authenticationToken }
  let request1 := { request with RequestHeader := some header4 }
  let pending : CompletedEntry := { callerHandle := callerHandle.getD h, request := request1 }
  ({ st with handleCounter := c, requests := mapSet h pending st.requests }, request1)

/-- The wire correlation handle of a response:
`response.Body?.ResponseHeader?.RequestHandle ?? 0`. -/
def wireHandle (response : ResponseMessage) : Nat :=
  (((response.Body.bind (·.ResponseHeader)).bind (·.RequestHandle))).getD 0

/-- `processRawResponse` (SessionProvider): an `AASResponse` push goes
to the one-shot listener keyed by its embedded handle (removed after
firing) or is broadcast (callback invocation is external I/O); any
other response is correlated by `wireHandle` — if a pending entry is
found it is removed, completed and queued and the message counter is
incremented, otherwise the response is silently discarded. -/
def processRawResponse (st : SessionInternals) (response : ResponseMessage) :
    SessionInternals :=
  if response.ServiceId = ServiceId.AASResponse then
    match (response.Body.bind (·.RequestHeader)).bind (·.AASRequestHandle) with
    | some h =>
        if st.aasListenerHandles.contains h then
          { st with aasListenerHandles := st.aasListenerHandles.filter (· != h) }
        else st
    | none => st
  else
    let callerHandle := wireHandle response
    match mapGet callerHandle st.requests with
    | some entry =>
        { st with
          requests := mapDelete callerHandle st.requests,
          responses := st.responses ++ [{ entry with response := some response }],
          messageCounter := st.messageCounter + 1 }
    | none => st

/-- The partition loop inside `processMessages`: one pass over the
completed queue, pushing matches onto `matched` and the rest onto
`remaining`, both in original order. -/
def drainPartition (matcher : CompletedEntry → Bool) :
    List CompletedEntry → List CompletedEntry × List CompletedEntry
  | [] => ([], [])
  | x :: xs =>
      let (matched, remaining) := drainPartition matcher xs
      if matcher x then (x :: matched, remaining) else (matched, x :: remaining)

/-- `processMessages(matcher)`: drains the matching completed entries
and keeps the rest as the new queue. -/
def processMessages (matcher : CompletedEntry → Bool) (st : SessionInternals) :
    List CompletedEntry × SessionInternals :=
  let (matched, remaining) := drainPartition matcher st.responses
  (matched, { st with responses := remaining })

/-! ### Registry lemmas -/

theorem drainPartition_eq_filter (matcher : CompletedEntry → Bool)
    (l : List CompletedEntry) :
    drainPartition matcher l = (l.filter matcher, l.filter (fun x => !(matcher x))) := by
  induction l with
  | nil => simp [drainPartition]
  | cons x xs ih =>
      simp only [drainPartition, ih, List.filter_cons]
      cases h : matcher x <;> simp [h]

theorem mapGet_mapDelete (k : Nat) (l : List (Nat × α)) :
    mapGet k (mapDelete k l) = none := by
  induction l with
  | nil => rfl
  | cons p rest ih =>
      by_cases h : p.1 = k
      · simpa [mapDelete, List.filter_cons, h] using ih
      · simpa [mapDelete, List.filter_cons, h, mapGet, bne_iff_ne] using ih

/-! ### Claim theorems: request registry -/

/-- C3.  Drain partition law: `processMessages(P)` returns exactly the
entries of the completed queue satisfying `P` in their original
relative order and leaves exactly the entries not satisfying `P`, in
their original relative order, as the new queue; nothing else in the
state changes. -/
theorem processMessages_partition (matcher : CompletedEntry → Bool)
    (st : SessionInternals) :
    (processMessages matcher st).1 = st.responses.filter matcher
    ∧ (processMessages matcher st).2 =
        { st with responses := st.responses.filter (fun x => !(matcher x)) } := by
  simp [processMessages, drainPartition_eq_filter]

/-- C4.  At-most-one correlation: a response whose wire handle matches
no pending entry leaves the whole registry state (pending map,
completed queue, message counter) unchanged, and after any response is
processed, processing a further response carrying the same wire handle
changes nothing — so at most one completed entry is ever produced per
stored handle. -/
theorem correlation_at_most_once (st : SessionInternals)
    (r1 r2 : ResponseMessage)
    (h1 : r1.ServiceId ≠ ServiceId.AASResponse)
    (h2 : r2.ServiceId ≠ ServiceId.AASResponse)
    (hsame : wireHandle r2 = wireHandle r1) :
    (mapGet (wireHandle r1) st.requests = none → processRawResponse st r1 = st)
    ∧ processRawResponse (processRawResponse st r1) r2 = processRawResponse st r1 := by
  constructor
  · intro hnone
    simp [processRawResponse, h1, hnone]
  · by_cases hfound : mapGet (wireHandle r1) st.requests = none
    · simp [processRawResponse, h1, h2, hfound, hsame]
    · obtain ⟨e, he⟩ := Option.ne_none_iff_exists'.mp hfound
      simp [processRawResponse, h1, h2, he, hsame, mapGet_mapDelete]

/-- Concrete registry state for the C4 witness: one pending request
under handle 3. -/
def c4State : SessionInternals :=
  { requests := [(3, { callerHandle := 3, request := { ServiceId := .ReadRequest } })] }

/-- Concrete response for the C4 witness, carrying wire handle 9,
which matches no pending entry. -/
def c4Response : ResponseMessage :=
  { ServiceId := .ReadResponse,
    Body := some { ResponseHeader := some { RequestHandle := some 9 } } }

/-- Witness for C4 at a concrete input. -/
theorem correlation_at_most_once_witness :
    processRawResponse c4State c4Response = c4State
    ∧ processRawResponse (processRawResponse c4State c4Response) c4Response
        = processRawResponse c4State c4Response := by
  have h := correlation_at_most_once c4State c4Response c4Response
    (by decide) (by decide) rfl
  exact ⟨h.1 (by decide), h.2⟩

/-! ### `mapSet` lookup lemmas -/

theorem mapGet_append_single (k : Nat) (v : α) (l : List (Nat × α))
    (h : mapGet k l = none) : mapGet k (l ++ [(k, v)]) = some v := by
  induction l with
  | nil => simp [mapGet]
  | cons p rest ih =>
      by_cases hp : p.1 = k
      · simp [mapGet, hp] at h
      · simp only [mapGet, hp, if_false, List.cons_append, if_neg hp] at h ⊢
        exact ih h

theorem mapGet_map_overwrite (k : Nat) (v : α) (l : List (Nat × α))
    (h : mapHas k l) :
    mapGet k (l.map (fun p => if p.1 == k then (k, v) else p)) = some v := by
  induction l with
  | nil => simp [mapHas, mapGet] at h
  | cons p rest ih =>
      by_cases hp : p.1 = k
      · simp [mapGet, hp]
      · have h' : mapHas k rest := by
          simpa [mapHas, mapGet, hp] using h
        have hb : (p.1 == k) = false := by simpa using hp
        simp only [List.map_cons, hb, Bool.false_eq_true, if_false, mapGet, if_neg hp]
        exact ih h'

theorem mapGet_mapSet_self (k : Nat) (v : α) (l : List (Nat × α)) :
    mapGet k (mapSet k v l) = some v := by
  unfold mapSet
  by_cases h : mapHas k l
  · simpa [h] using mapGet_map_overwrite k v l h
  · have hn : mapGet k l = none := by
      by_cases hc : mapGet k l = none
      · exact hc
      · exact absurd (by simp [mapHas, Option.isSome_iff_ne_none, hc]) h
    simpa [h] using mapGet_append_single k v l hn

/-- Concrete request for the C6 counterexample: the caller has already
set `RequestHandle` to 5. -/
def c6Request : RequestMessage :=
  { ServiceId := .ReadRequest, RequestHeader := some { RequestHandle := some 5 } }

/-- C6 counterexample: `sendRequest` does NOT leave a caller-set
`RequestHandle` alone — starting from the initial state (counter 0),
the sent header carries the fresh handle 1, not the caller's 5.  This
refutes the claim that `RequestHandle` is filled in only when the
caller has not already set that field. -/
theorem sendRequest_handle_overwritten_cx :
    ((sendRequest {} 1000 c6Request none).2.RequestHeader.map (·.RequestHandle))
      = some (some 1)
    ∧ some (1 : Nat) ≠ some 5 := by
  exact ⟨by decide, by decide⟩

/-- C6 (amended).  `sendRequest` ensures a header exists and ALWAYS
overwrites `RequestHandle` with a fresh `HandleFactory` value (even
when the caller set one); it fills `Timestamp` (now), `TimeoutHint`
(the configured timeout, initially 60000 ms) and `AuthenticationToken`
(current session token) only when the caller has not already set that
field; and it records a pending entry keyed by the fresh handle whose
`callerHandle` defaults to that handle when the caller passed none. -/
theorem sendRequest_defaulting_amended (st : SessionInternals) (now : Nat)
    (request : RequestMessage) (callerHandle : Option Nat) :
    (((sendRequest st now request callerHandle).2.RequestHeader.getD {}).RequestHandle
        = some (st.handleCounter + 1))
    ∧ ((request.RequestHeader.getD {}).Timestamp = none →
        ((sendRequest st now request callerHandle).2.RequestHeader.getD {}).Timestamp = some now)
    ∧ ((request.RequestHeader.getD {}).Timestamp ≠ none →
        ((sendRequest st now request callerHandle).2.RequestHeader.getD {}).Timestamp
          = (request.RequestHeader.getD {}).Timestamp)
    ∧ (truthyNat (request.RequestHeader.getD {}).TimeoutHint = false →
        ((sendRequest st now request callerHandle).2.RequestHeader.getD {}).TimeoutHint
          = some st.requestTimeout)
    ∧ (truthyNat (request.RequestHeader.getD {}).TimeoutHint = true →
        ((sendRequest st now request callerHandle).2.RequestHeader.getD {}).TimeoutHint
          = (request.RequestHeader.getD {}).TimeoutHint)
    ∧ (truthyStr (request.RequestHeader.getD {}).AuthenticationToken = false →
        ((sendRequest st now request callerHandle).2.RequestHeader.getD {}).AuthenticationToken
          = st.authenticationToken)
    ∧ (truthyStr (request.RequestHeader.getD {}).AuthenticationToken = true →
        ((sendRequest st now request callerHandle).2.RequestHeader.getD {}).AuthenticationToken
          = (request.RequestHeader.getD {}).AuthenticationToken)
    ∧ (mapGet (st.handleCounter + 1) (sendRequest st now request callerHandle).1.requests
        = some { callerHandle := callerHandle.getD (st.handleCounter + 1),
                 request := (sendRequest st now request callerHandle).2 })
    ∧ ({} : SessionInternals).requestTimeout = 60000 := by
  unfold sendRequest HandleFactory.increment
  refine ⟨?_, ?_, ?_, ?_, ?_, ?_, ?_, ?_, rfl⟩ <;>
    simp only [] <;>
    first
    | (intro h ;
       by_cases ht : (request.RequestHeader.getD {}).Timestamp = none <;>
       by_cases hh : truthyNat (request.RequestHeader.getD {}).TimeoutHint <;>
       by_cases ha : truthyStr (request.RequestHeader.getD {}).AuthenticationToken <;>
       simp_all)
    | (by_cases ht : (request.RequestHeader.getD {}).Timestamp = none <;>
       by_cases hh : truthyNat (request.RequestHeader.getD {}).TimeoutHint <;>
       by_cases ha : truthyStr (request.RequestHeader.getD {}).AuthenticationToken <;>
       simp_all [mapGet_mapSet_self])

/-- Witness for C6 (amended) at a concrete input: empty caller header,
so every defaulting branch fires. -/
theorem sendRequest_defaulting_amended_witness :
    (((sendRequest {} 77 { ServiceId := .ReadRequest } (some 42)).2.RequestHeader.getD
        {}).RequestHandle = some 1)
    ∧ (((sendRequest {} 77 { ServiceId := .ReadRequest } (some 42)).2.RequestHeader.getD
        {}).Timestamp = some 77)
    ∧ (((sendRequest {} 77 { ServiceId := .ReadRequest } (some 42)).2.RequestHeader.getD
        {}).TimeoutHint = some 60000)
    ∧ (mapGet 1 (sendRequest {} 77 { ServiceId := .ReadRequest } (some 42)).1.requests
        = some { callerHandle := 42,
                 request := (sendRequest {} 77 { ServiceId := .ReadRequest } (some 42)).2 }) := by
  have h := sendRequest_defaulting_amended {} 77 { ServiceId := .ReadRequest } (some 42)
  exact ⟨h.1, h.2.1 rfl, h.2.2.2.1 rfl, h.2.2.2.2.2.2.2.1⟩

/-! ### Session state machine -/

theorem truthyNat_none : truthyNat none = false := rfl

theorem truthyStr_none : truthyStr none = false := rfl

/-- The service ids of a list of sent messages. -/
def sentServiceIds (l : List RequestMessage) : List ServiceId := l.map (·.ServiceId)

/-- The `AuthenticationToken` carried by a sent request's header. -/
def headerAuthToken (r : RequestMessage) : Option String :=
  (r.RequestHeader.getD {}).AuthenticationToken

/-- The `UserIdentityToken` attached to a sent ActivateSessionRequest. -/
def identityTokenOf (r : RequestMessage) : Option IssuedIdentityToken :=
  match r.body with
  | .activateSession _ tok => tok
  | _ => none

/-- `activateSession` (SessionProvider): picks the wss-uajson server
endpoint, builds an issued identity token from the logged-in user's
access token (base64 via `btoa`) with the endpoint's JWT policy id,
and sends an ActivateSessionRequest whose request header's
`AuthenticationToken` is the token returned by the
CreateSessionResponse. -/
def activateSession (st : SessionInternals) (now : Nat) (user : UserEnv)
    (csr : ResponseBodyData) : SessionInternals × RequestMessage :=
  let endpoint := (csr.ServerEndpoints.getD []).find?
    (fun e => e.TransportProfileUri ==
      some "http://opcfoundation.org/UA-Profile/Transport/wss-uajson")
  let token : Option IssuedIdentityToken :=
    if user.loginStatus = UserLoginStatus.LoggedIn ∧ truthyStr user.accessToken then
      let policy := ((endpoint.bind (·.UserIdentityTokens)).getD []).find?
        (fun t => t.IssuedTokenType == some "http://opcfoundation.org/UA/UserToken#JWT")
      some { PolicyId := policy.bind (·.PolicyId),
             TokenData := .base64 (user.accessToken.getD "") }
    else none
  let request : RequestMessage :=
    { ServiceId := .ActivateSessionRequest,
      RequestHeader := some { AuthenticationToken := csr.AuthenticationToken },
      body := .activateSession ["en"] token }
  sendRequest st now request none

/-- `createSession` (SessionProvider): sends a CreateSessionRequest
(the constant client description and endpoint URL are environment
data; the numeric constants are kept). -/
def createSession (st : SessionInternals) (now : Nat) :
    SessionInternals × RequestMessage :=
  sendRequest st now
    { ServiceId := .CreateSessionRequest,
      body := .createSession 120000 (8 * 1014 * 1024) } none

/-- `deleteSession` (SessionProvider): sends a CloseSessionRequest
with `DeleteSubscriptions = true`. -/
def deleteSession (st : SessionInternals) (now : Nat) :
    SessionInternals × RequestMessage :=
  sendRequest st now
    { ServiceId := .CloseSessionRequest, body := .closeSession true } none

/-- The `readyState` effect (SessionProvider): Connecting sets the
state to Connecting; Open sets it to NoSession and, when the
session-enabled flag is set, sends a CreateSessionRequest and moves to
Creating; Closed while SessionActive sends a CloseSessionRequest and
moves to Disconnected. -/
def readyStateEffect (st : SessionInternals) (now : Nat)
    (readyState : ReadyState) : SessionInternals × List RequestMessage :=
  match readyState with
  | .Connecting => ({ st with sessionState := .Connecting }, [])
  | .Open =>
      let st1 := { st with sessionState := SessionState.NoSession }
      if st1.isSessionEnabled then
        let (st2, msg) := createSession st1 now
        ({ st2 with sessionState := .Creating }, [msg])
      else (st1, [])
  | .Closed =>
      if st.sessionState = SessionState.SessionActive then
        let (st1, msg) := deleteSession st now
        ({ st1 with sessionState := .Disconnected }, [msg])
      else (st, [])
  | _ => (st, [])

/-- The matcher of the session response drain effect. -/
def sessionResponseMatcher (msg : CompletedEntry) : Bool :=
  match msg.response.map (fun r => r.ServiceId) with
  | some ServiceId.CreateSessionResponse => true
  | some ServiceId.ActivateSessionResponse => true
  | some ServiceId.CloseSessionResponse => true
  | _ => false

/-- One iteration of the session response drain loop
(SessionProvider): CreateSessionResponse stores the returned token and
immediately activates; ActivateSessionResponse stores the server nonce
and moves to SessionActive; CloseSessionResponse clears token and
nonce and moves to NoSession. -/
def sessionHandleOne (now : Nat) (user : UserEnv) (st : SessionInternals)
    (msg : CompletedEntry) : SessionInternals × List RequestMessage :=
  match msg.response with
  | some response =>
      if response.ServiceId = ServiceId.CreateSessionResponse then
        let csr := response.Body.getD {}
        let st1 := { st with authenticationToken := csr.AuthenticationToken }
        let (st2, sent) := activateSession st1 now user csr
        (st2, [sent])
      else if response.ServiceId = ServiceId.ActivateSessionResponse then
        let asr := response.Body.getD {}
        ({ st with serverNonce := asr.ServerNonce,
                   sessionState := .SessionActive }, [])
      else if response.ServiceId = ServiceId.CloseSessionResponse then
        ({ st with authenticationToken := none, serverNonce := none,
                   sessionState := .NoSession }, [])
      else (st, [])
  | none => (st, [])

/-- The session response drain effect (SessionProvider): drains the
session responses from the completed queue and handles each in
order. -/
def sessionResponsesEffect (st : SessionInternals) (now : Nat)
    (user : UserEnv) : SessionInternals × List RequestMessage :=
  let (messages, st1) := processMessages sessionResponseMatcher st
  messages.foldl
    (fun (acc : SessionInternals × List RequestMessage) msg =>
      let (st2, sent) := sessionHandleOne now user acc.1 msg
      (st2, acc.2 ++ sent))
    (st1, [])

/-- `setIsSessionEnabledImpl` (SessionProvider).  The first condition
is kept with JavaScript operator precedence:
`value && state === NoSession || state === Disconnected` parses as
`(value && state === NoSession) || state === Disconnected`. -/
def setIsSessionEnabledImpl (st : SessionInternals) (now : Nat)
    (value : Bool) : SessionInternals × List RequestMessage :=
  if st.isSessionEnabled = value then (st, [])
  else
    let st1 := { st with isSessionEnabled := value }
    if (value ∧ st1.sessionState = SessionState.NoSession)
        ∨ st1.sessionState = SessionState.Disconnected then
      let (st2, msg) := createSession st1 now
      ({ st2 with sessionState := .Creating }, [msg])
    else if (¬ value) ∧ st1.sessionState = SessionState.SessionActive then
      let (st2, msg) := deleteSession st1 now
      ({ st2 with sessionState := .Disconnected }, [msg])
    else (st1, [])

/-! ### Claim theorems: session state machine -/

/-- Failing input for C7: the session-enabled flag is on and the
session state is Disconnected. -/
def c7State : SessionInternals :=
  { isSessionEnabled := true, sessionState := .Disconnected }

/-- C7.  Evaluation of the code at the failing input: disabling the
session-enabled flag while sessionState is Disconnected SENDS a
CreateSessionRequest and moves the state to Creating, because
`value && state === NoSession || state === Disconnected` groups as
`(value && ...) || ...` — where the claim (and the spec's intent) says
no request is sent and the state is left unchanged. -/
theorem disable_while_disconnected_creates_session :
    sentServiceIds (setIsSessionEnabledImpl c7State 0 false).2
      = [ServiceId.CreateSessionRequest]
    ∧ (setIsSessionEnabledImpl c7State 0 false).1.sessionState
      = SessionState.Creating := by
  exact ⟨by decide, by decide⟩

/-- Completed queue for the C2 counterexample: a CreateSessionResponse
returning authentication token "tok1". -/
def c2State : SessionInternals :=
  { sessionState := .Creating,
    responses := [{ callerHandle := 1,
                    request := { ServiceId := .CreateSessionRequest },
                    response := some { ServiceId := .CreateSessionResponse,
                                       Body := some { AuthenticationToken := some "tok1" } } }] }

/-- C2 counterexample: draining the CreateSessionResponse sends an
ActivateSessionRequest whose request header DOES carry an
`AuthenticationToken` (the token "tok1" returned by the
CreateSessionResponse), refuting the claim that the header carries
none. -/
theorem activate_header_carries_token_cx :
    ((sessionResponsesEffect c2State 0 {}).2.map
        (fun r => (r.ServiceId, headerAuthToken r)))
      = [(ServiceId.ActivateSessionRequest, some "tok1")]
    ∧ (some "tok1" : Option String) ≠ none := by
  exact ⟨by decide, by decide⟩

/-- C2 (amended).  Session handshake: with the session-enabled flag
set, channel open sends a CreateSessionRequest and moves to Creating;
on CreateSessionResponse the returned token is stored and an
ActivateSessionRequest is immediately sent whose request header
carries exactly the authentication token returned by the
CreateSessionResponse (with an issued identity token holding the
base64-encoded access token of the logged-in user when available,
else no identity token); on ActivateSessionResponse the server nonce
is stored and sessionState becomes SessionActive. -/
theorem session_handshake_amended (st : SessionInternals) (now : Nat)
    (user : UserEnv) (ch : Nat) (req : RequestMessage)
    (csr asr : ResponseBodyData) :
    (st.isSessionEnabled = true →
      sentServiceIds (readyStateEffect st now ReadyState.Open).2
        = [ServiceId.CreateSessionRequest]
      ∧ (readyStateEffect st now ReadyState.Open).1.sessionState
        = SessionState.Creating)
    ∧ ((sessionHandleOne now user st
          { callerHandle := ch, request := req,
            response := some { ServiceId := .CreateSessionResponse,
                               Body := some csr } }).1.authenticationToken
        = csr.AuthenticationToken
      ∧ sentServiceIds (sessionHandleOne now user st
          { callerHandle := ch, request := req,
            response := some { ServiceId := .CreateSessionResponse,
                               Body := some csr } }).2
        = [ServiceId.ActivateSessionRequest]
      ∧ (sessionHandleOne now user st
          { callerHandle := ch, request := req,
            response := some { ServiceId := .CreateSessionResponse,
                               Body := some csr } }).2.map headerAuthToken
        = [csr.AuthenticationToken]
      ∧ (¬ (user.loginStatus = UserLoginStatus.LoggedIn
              ∧ truthyStr user.accessToken = true) →
          (sessionHandleOne now user st
            { callerHandle := ch, request := req,
              response := some { ServiceId := .CreateSessionResponse,
                                 Body := some csr } }).2.map identityTokenOf
            = [none])
      ∧ ((user.loginStatus = UserLoginStatus.LoggedIn
              ∧ truthyStr user.accessToken = true) →
          ∃ pid, (sessionHandleOne now user st
            { callerHandle := ch, request := req,
              response := some { ServiceId := .CreateSessionResponse,
                                 Body := some csr } }).2.map identityTokenOf
            = [some { PolicyId := pid,
                      TokenData := .base64 (user.accessToken.getD "") }]))
    ∧ (sessionHandleOne now user st
          { callerHandle := ch, request := req,
            response := some { ServiceId := .ActivateSessionResponse,
                               Body := some asr } }
        = ({ st with serverNonce := asr.ServerNonce,
                     sessionState := .SessionActive }, [])) := by
  refine ⟨?_, ⟨?_, ?_, ?_, ?_, ?_⟩, ?_⟩
  · intro h
    simp [readyStateEffect, createSession, sendRequest, sentServiceIds, h]
  · by_cases ha : truthyStr csr.AuthenticationToken <;>
      by_cases hl : user.loginStatus = UserLoginStatus.LoggedIn
          ∧ truthyStr user.accessToken = true <;>
      simp [sessionHandleOne, activateSession, sendRequest,
        HandleFactory.increment, truthyNat_none, truthyStr_none, ha, hl]
  · by_cases ha : truthyStr csr.AuthenticationToken <;>
      by_cases hl : user.loginStatus = UserLoginStatus.LoggedIn
          ∧ truthyStr user.accessToken = true <;>
      simp [sessionHandleOne, activateSession, sendRequest,
        HandleFactory.increment, sentServiceIds, truthyNat_none, truthyStr_none, ha, hl]
  · by_cases ha : truthyStr csr.AuthenticationToken <;>
      by_cases hl : user.loginStatus = UserLoginStatus.LoggedIn
          ∧ truthyStr user.accessToken = true <;>
      simp [sessionHandleOne, activateSession, sendRequest,
        HandleFactory.increment, headerAuthToken, truthyNat_none, truthyStr_none, ha, hl]
  · intro h
    by_cases ha : truthyStr csr.AuthenticationToken <;>
      simp [sessionHandleOne, activateSession, sendRequest,
        HandleFactory.increment, identityTokenOf, truthyNat_none, truthyStr_none, ha, h]
  · intro h
    refine ⟨((((((csr.ServerEndpoints.getD []).find?
        (fun e => e.TransportProfileUri ==
          some "http://opcfoundation.org/UA-Profile/Transport/wss-uajson")).bind
        (·.UserIdentityTokens)).getD []).find?
        (fun t => t.IssuedTokenType ==
          some "http://opcfoundation.org/UA/UserToken#JWT")).bind
        (·.PolicyId)), ?_⟩
    by_cases ha : truthyStr csr.AuthenticationToken <;>
      simp [sessionHandleOne, activateSession, sendRequest,
        HandleFactory.increment, identityTokenOf, truthyNat_none, truthyStr_none, ha, h]
  · simp [sessionHandleOne]

/-- Witness for C2 (amended) at concrete inputs: session enabled,
token "tok1", nonce "n1", logged-out user. -/
theorem session_handshake_amended_witness :
    sentServiceIds (readyStateEffect { isSessionEnabled := true } 0 ReadyState.Open).2
      = [ServiceId.CreateSessionRequest]
    ∧ (sessionHandleOne 0 {} { isSessionEnabled := true }
        { callerHandle := 1, request := { ServiceId := .CreateSessionRequest },
          response := some { ServiceId := .CreateSessionResponse,
                             Body := some { AuthenticationToken := some "tok1" } } }).1.authenticationToken
      = some "tok1"
    ∧ (sessionHandleOne 0 {} { isSessionEnabled := true }
        { callerHandle := 1, request := { ServiceId := .CreateSessionRequest },
          response := some { ServiceId := .CreateSessionResponse,
                             Body := some { AuthenticationToken := some "tok1" } } }).2.map identityTokenOf
      = [none]
    ∧ (sessionHandleOne 0 {} { isSessionEnabled := true }
        { callerHandle := 2, request := { ServiceId := .ActivateSessionRequest },
          response := some { ServiceId := .ActivateSessionResponse,
                             Body := some { ServerNonce := some "n1" } } }).1.sessionState
      = SessionState.SessionActive := by
  have h := session_handshake_amended { isSessionEnabled := true } 0 {} 1
    { ServiceId := .CreateSessionRequest }
    { AuthenticationToken := some "tok1" } { ServerNonce := some "n1" }
  have h2 := session_handshake_amended { isSessionEnabled := true } 0 {} 2
    { ServiceId := .ActivateSessionRequest }
    { AuthenticationToken := some "tok1" } { ServerNonce := some "n1" }
  exact ⟨(h.1 rfl).1, h.2.1.1, h.2.1.2.2.2.1 (by decide),
    congrArg (fun p => p.1.sessionState) h2.2.2⟩

/-! ### Subscription state machine and publish loop -/

/-- `SubscriptionState` (`service/SubscriptionState.ts`; the two
values used by the source). -/
inductive SubscriptionState where
  | Closed
  | Open
deriving DecidableEq, Repr

/-- `IMonitoredItem`.  `path` is a list (an absent path and an empty
one behave identically under `path?.length` truthiness).  The
`value : DataValue` field is never read by the embedded operations and
is elided.  `creationError` stores the status code (the source stores
either a raw `StatusCode` or, on a batch error, the `ServiceResult`
object; only the code and its truthiness are ever observable). -/
structure MonitoredItem where
  nodeId : String
  path : List String := []
  resolvedNodeId : Option String := none
  attributeId : Option Nat := none
  samplingInterval : Option Nat := none
  subscriberHandle : Option Nat := none
  itemHandle : Option Nat := none
  monitoredItemId : Option Nat := none
  creationError : Option Nat := none
deriving DecidableEq, Repr

/-- `InternalRequest`: the record the subscription provider keeps per
in-flight request (the `items` list mirrors the aliased item objects
of the batch). -/
structure InternalRequest where
  internalHandle : Option Nat := none
  serviceId : Option ServiceId := none
  items : List MonitoredItem := []
deriving DecidableEq, Repr

/-- The mutable state of `SubscriptionProvider` (`m.current` merged
with the React state `publishCount` / `lastSequenceNumber` /
`subscriptionId` it drives), plus the threaded `HandleFactory`
counter. -/
structure SubscriptionInternals where
  isEnabled : Bool := false
  publishingInterval : Nat := 5000
  samplingInterval : Nat := 1000
  subscriptionState : SubscriptionState := .Closed
  subscriptionId : Option Nat := none
  monitoredItems : List (Nat × MonitoredItem) := []
  acknowledgements : List SubscriptionAcknowledgement := []
  requests : List (Nat × InternalRequest) := []
  publishCount : Nat := 0
  lastSequenceNumber : Nat := 0
  handleCounter : Nat := 0
deriving DecidableEq, Repr

/-- `send` (SubscriptionProvider): allocates (or reuses) the internal
handle, records the internal request keyed by it, and passes the
message to the session's `sendRequest` (the message handed over is
returned). -/
def sendSub (st : SubscriptionInternals) (message : RequestMessage)
    (request : Option InternalRequest) :
    SubscriptionInternals × List RequestMessage :=
  let (c, internalHandle) :=
    match request.bind (fun r => r.internalHandle) with
    | some h => (st.handleCounter, h)
    | none => HandleFactory.increment st.handleCounter
  let req : InternalRequest :=
    match request with
    | none => { internalHandle := some internalHandle,
                serviceId := some message.ServiceId, items := [] }
    | some r => { r with internalHandle := some internalHandle,
                         serviceId := some message.ServiceId }
  ({ st with handleCounter := c,
             requests := mapSet internalHandle req st.requests }, [message])

/-- `enablePublishing`: sends a SetPublishingModeRequest naming the
subscription id when it is truthy. -/
def enablePublishing (st : SubscriptionInternals) (value : Bool)
    (subscriptionId : Nat) : SubscriptionInternals × List RequestMessage :=
  let ids := if subscriptionId ≠ 0 then [subscriptionId] else []
  sendSub st { ServiceId := .SetPublishingModeRequest,
               body := .setPublishingMode value ids } none

/-- `createSubscription`: sends a CreateSubscriptionRequest with the
configured publishing interval and the source's constants. -/
def createSubscriptionReq (st : SubscriptionInternals)
    (publishingInterval : Nat) : SubscriptionInternals × List RequestMessage :=
  sendSub st { ServiceId := .CreateSubscriptionRequest,
               body := .createSubscription publishingInterval 180 3 1000 false 100 } none

/-- `deleteSubscription`: sends a DeleteSubscriptionsRequest for one
subscription id. -/
def deleteSubscriptionReq (st : SubscriptionInternals)
    (subscriptionId : Nat) : SubscriptionInternals × List RequestMessage :=
  sendSub st { ServiceId := .DeleteSubscriptionsRequest,
               body := .deleteSubscriptions [subscriptionId] } none

/-- `publish`: sends a PublishRequest carrying the full current
acknowledgement queue (the queue itself is not modified). -/
def publish (st : SubscriptionInternals) :
    SubscriptionInternals × List RequestMessage :=
  sendSub st { ServiceId := .PublishRequest,
               body := .publish st.acknowledgements } none

/-- The scan loop of `translate`: already-resolved or failed items are
skipped; items without a path are resolved in place to their own
`nodeId`; the rest contribute a browse path and join the batch.
Returns (updated items, browse paths, batch items), all in original
order. -/
def translateScan :
    List MonitoredItem → List MonitoredItem × List BrowsePath × List MonitoredItem
  | [] => ([], [], [])
  | item :: rest =>
      let (items, paths, batch) := translateScan rest
      if truthyStr item.resolvedNodeId ∨ truthyNat item.creationError then
        (item :: items, paths, batch)
      else if item.path.isEmpty then
        ({ item with resolvedNodeId := some item.nodeId } :: items, paths, batch)
      else
        let bp : BrowsePath :=
          { StartingNode := item.nodeId,
            Elements := item.path.map (fun p => { TargetName := p }) }
        (item :: items, bp :: paths, item :: batch)

/-- `translate` (SubscriptionProvider): batches the unresolved items
with a browse path into one TranslateBrowsePathsToNodeIds request (if
any) and resolves pathless items immediately. -/
def translate (st : SubscriptionInternals) (items : List MonitoredItem) :
    SubscriptionInternals × List MonitoredItem × List RequestMessage :=
  let (items1, paths, batch) := translateScan items
  if batch.isEmpty then (st, items1, [])
  else
    let (st1, sent) := sendSub st
      { ServiceId := .TranslateBrowsePathsToNodeIdsRequest,
        body := .translateBrowsePaths paths }
      (some { items := batch })
    (st1, items1, sent)

/-- The scan loop of `createMonitoredItems`: items with a resolved
node id and no server id and no error contribute a create request and
join the batch. -/
def createScan (defaultSampling : Nat) :
    List MonitoredItem → List MonitoredItemCreateRequest × List MonitoredItem
  | [] => ([], [])
  | item :: rest =>
      let (reqs, batch) := createScan defaultSampling rest
      if truthyStr item.resolvedNodeId ∧ ¬ truthyNat item.monitoredItemId
          ∧ ¬ truthyNat item.creationError then
        ({ ItemToMonitor := { NodeId := item.resolvedNodeId,
                              AttributeId := item.attributeId },
           RequestedParameters :=
             { ClientHandle := item.itemHandle,
               SamplingInterval := item.samplingInterval.getD defaultSampling } } :: reqs,
         item :: batch)
      else (reqs, batch)

/-- `createMonitoredItems` (SubscriptionProvider): batches the
eligible items into one CreateMonitoredItemsRequest
(timestamps-to-return = Both, queue size 1, discard-oldest), sent only
when non-empty. -/
def createMonitoredItemsReq (st : SubscriptionInternals)
    (items : List MonitoredItem) (subscriptionId : Option Nat) :
    SubscriptionInternals × List RequestMessage :=
  let (reqs, batch) := createScan st.samplingInterval items
  if reqs.isEmpty then (st, [])
  else
    sendSub st
      { ServiceId := .CreateMonitoredItemsRequest,
        body := .createMonitoredItems subscriptionId 2 reqs }
      (some { items := batch })

/-- The scan loop of `deleteMonitoredItems`: collects the server ids
of items holding one and clears them in place. -/
def deleteScan : List MonitoredItem → List Nat × List MonitoredItem
  | [] => ([], [])
  | item :: rest =>
      let (ids, items) := deleteScan rest
      if truthyNat item.monitoredItemId then
        (item.monitoredItemId.getD 0 :: ids,
         { item with monitoredItemId := none } :: items)
      else (ids, item :: items)

/-- `deleteMonitoredItems` (SubscriptionProvider): collects the items
holding a server-assigned id into one DeleteMonitoredItemsRequest and
clears each collected id immediately on send. -/
def deleteMonitoredItemsReq (st : SubscriptionInternals)
    (items : List MonitoredItem) (subscriptionId : Nat) :
    SubscriptionInternals × List MonitoredItem × List RequestMessage :=
  let (ids, items1) := deleteScan items
  if ids.isEmpty then (st, items1, [])
  else
    let (st1, sent) := sendSub st
      { ServiceId := .DeleteMonitoredItemsRequest,
        body := .deleteMonitoredItems subscriptionId ids } none
    (st1, items1, sent)

/-- `deleteMonitoredItem` (SubscriptionProvider): the single-item
variant. -/
def deleteMonitoredItemReq (st : SubscriptionInternals)
    (item : MonitoredItem) (subscriptionId : Nat) :
    SubscriptionInternals × MonitoredItem × List RequestMessage :=
  if truthyNat item.monitoredItemId then
    let (st1, sent) := sendSub st
      { ServiceId := .DeleteMonitoredItemsRequest,
        body := .deleteMonitoredItems subscriptionId [item.monitoredItemId.getD 0] }
      none
    (st1, { item with monitoredItemId := none }, sent)
  else (st, item, [])

/-- The handle-assignment loop of `subscribe` / `addNewMonitoredItem`:
each item gets a fresh `itemHandle`, `subscriberHandle` defaults to
the item handle and `attributeId` to `Attributes.Value` (13) when not
already truthy, and the item is registered in the monitored-items
map.  Returns (new counter, updated items, updated map). -/
def assignHandles (counter : Nat) (monitored : List (Nat × MonitoredItem)) :
    List MonitoredItem → Nat × List MonitoredItem × List (Nat × MonitoredItem)
  | [] => (counter, [], monitored)
  | item :: rest =>
      let (c, h) := HandleFactory.increment counter
      let item1 : MonitoredItem :=
        { item with
          itemHandle := some h,
          subscriberHandle :=
            if truthyNat item.subscriberHandle then item.subscriberHandle else some h,
          attributeId :=
            if truthyNat item.attributeId then item.attributeId else some 13 }
      let (c1, items, monitored1) := assignHandles c (mapSet h item1 monitored) rest
      (c1, item1 :: items, monitored1)

/-- `subscribe` (and the identical `addNewMonitoredItem`): assigns
handles and registers the items, then translates paths and creates the
eligible monitored items.  The `clientHandle` argument is unused by
the source body. -/
def subscribe (st : SubscriptionInternals) (items : List MonitoredItem)
    (_clientHandle : Nat) (subscriptionId : Nat) :
    SubscriptionInternals × List MonitoredItem × List RequestMessage :=
  let (c, items1, monitored) := assignHandles st.handleCounter st.monitoredItems items
  let st1 := { st with handleCounter := c, monitoredItems := monitored }
  let (st2, items2, sent1) := translate st1 items1
  let (st3, sent2) := createMonitoredItemsReq st2 items2 (some subscriptionId)
  (st3, items2, sent1 ++ sent2)

/-- `unsubscribe` (SubscriptionProvider): evicts each item with a
truthy `itemHandle` from the monitored-items map.  The
`deleteMonitoredItems(items)` call is commented out in the source
(`//TODO`), so nothing is sent and no server-assigned id is
cleared. -/
def unsubscribe (st : SubscriptionInternals) (items : List MonitoredItem) :
    SubscriptionInternals × List RequestMessage :=
  let monitored := items.foldl
    (fun m item =>
      if truthyNat item.itemHandle then mapDelete (item.itemHandle.getD 0) m else m)
    st.monitoredItems
  ({ st with monitoredItems := monitored }, [])

/-- `removeMonitoredItems` (SubscriptionProvider): evicts each item
with a truthy `itemHandle` from the monitored-items map, then sends
one DeleteMonitoredItemsRequest for the items holding a server id (and
clears those ids on send). -/
def removeMonitoredItems (st : SubscriptionInternals)
    (items : List MonitoredItem) (subscriptionId : Nat) :
    SubscriptionInternals × List MonitoredItem × List RequestMessage :=
  let monitored := items.foldl
    (fun m item =>
      if truthyNat item.itemHandle then mapDelete (item.itemHandle.getD 0) m else m)
    st.monitoredItems
  deleteMonitoredItemsReq { st with monitoredItems := monitored } items subscriptionId

/-- `removeMonitoredItem` (SubscriptionProvider): delegates to the
single-item delete for `items[index]` when the list is non-empty; the
item is NOT evicted from the monitored-items map.  (An out-of-range
index would make the source throw on `item.monitoredItemId`; it is
modelled as a no-op and not used by any claim.) -/
def removeMonitoredItem (st : SubscriptionInternals)
    (items : List MonitoredItem) (index : Nat) (subscriptionId : Nat) :
    SubscriptionInternals × Option MonitoredItem × List RequestMessage :=
  if items.length > 0 then
    match items[index]? with
    | some item =>
        let (st1, item1, sent) := deleteMonitoredItemReq st item subscriptionId
        (st1, some item1, sent)
    | none => (st, none, [])
  else (st, none, [])

/-- `setIsSubscriptionEnabled` (SubscriptionProvider): with a truthy
subscription id, sends a SetPublishingModeRequest and toggles the
subscription state optimistically. -/
def setIsSubscriptionEnabledImpl (st : SubscriptionInternals) (value : Bool)
    (subscriptionId : Nat) : SubscriptionInternals × List RequestMessage :=
  if subscriptionId = 0 then (st, [])
  else if st.subscriptionState = SubscriptionState.Closed then
    let (st1, sent) := enablePublishing st value subscriptionId
    ({ st1 with subscriptionState := .Open }, sent)
  else
    let (st1, sent) := enablePublishing st value subscriptionId
    ({ st1 with subscriptionState := .Closed }, sent)

/-- Positional application of translate results (drain effect, translate
branch, non-error path): result `i` is applied to batch item `i` —
`creationError` is set to the result's status code, and when that code
is falsy `resolvedNodeId` is set to the first target's id.  Extra
items keep their state (`forEach` over the results). -/
def applyTranslateResults :
    List MonitoredItem → List BrowsePathResult → List MonitoredItem
  | items, [] => items
  | [], _ => []
  | item :: items, result :: results =>
      let item1 := { item with creationError := result.StatusCode }
      let item2 :=
        if truthyNat result.StatusCode then item1
        else { item1 with
               resolvedNodeId := (result.Targets.getD []).head?.bind
                 (fun t => t.TargetId) }
      item2 :: applyTranslateResults items results

/-- Positional application of create results (drain effect, create
branch, non-error path): `creationError` is set to the result's status
code, and when that code is falsy `monitoredItemId` is set from the
result. -/
def applyCreateResults :
    List MonitoredItem → List MonitoredItemCreateResult → List MonitoredItem
  | items, [] => items
  | [], _ => []
  | item :: items, result :: results =>
      let item1 := { item with creationError := result.StatusCode }
      let item2 :=
        if truthyNat result.StatusCode then item1
        else { item1 with monitoredItemId := result.MonitoredItemId }
      item2 :: applyCreateResults items results

/-- Batch-level error: every item of the batch is marked with the
service-result code. -/
def markAll (code : Option Nat) (items : List MonitoredItem) : List MonitoredItem :=
  items.map (fun item => { item with creationError := code })

/-- Writes the updated batch items back over their aliases in the
monitored-items map (in the source the request's item array and the
map hold the same mutable objects). -/
def updateAliases (monitored : List (Nat × MonitoredItem))
    (items : List MonitoredItem) : List (Nat × MonitoredItem) :=
  items.foldl
    (fun m item =>
      match item.itemHandle with
      | some h => if mapHas h m then mapSet h item m else m
      | none => m)
    monitored

/-- The truthy code of a response body's `ResponseHeader.ServiceResult.Code`. -/
def serviceResultCode (body : ResponseBodyData) : Option Nat :=
  (body.ResponseHeader.bind (fun h => h.ServiceResult)).bind (fun s => s.Code)

/-- One iteration of the subscription response drain loop
(SubscriptionProvider): untracked caller handles are skipped; tracked
ones are consumed and dispatched on the response (or, for translate /
create, the request) service id.  Returns the new state, the messages
sent, and the updated batch items of the handled request (the source
mutates the aliased item objects in place). -/
def subscriptionDrainOne (st : SubscriptionInternals) (msg : CompletedEntry) :
    SubscriptionInternals × List RequestMessage × List MonitoredItem :=
  match mapGet msg.callerHandle st.requests with
  | none => (st, [], [])
  | some request =>
      let st := { st with requests := mapDelete msg.callerHandle st.requests }
      let respId := msg.response.map (fun r => r.ServiceId)
      if respId = some ServiceId.CreateSubscriptionResponse then
        -- `if (csrm?.ResponseHeader && !csrm?.ResponseHeader.ServiceResult)`
        let csrm := (msg.response.bind (fun r => r.Body)).getD {}
        if csrm.ResponseHeader.isSome
            ∧ ((csrm.ResponseHeader.getD {}).ServiceResult).isNone then
          ({ st with subscriptionId := csrm.SubscriptionId }, [], [])
        else (st, [], [])
      else if respId = some ServiceId.SetPublishingModeResponse then
        if st.subscriptionState = SubscriptionState.Open then
          ({ st with publishCount := st.publishCount + 1 }, [], [])
        else
          ({ st with publishCount := 0, lastSequenceNumber := 0 }, [], [])
      else if respId = some ServiceId.DeleteSubscriptionsResponse then
        ({ st with subscriptionId := none, acknowledgements := [],
                   subscriptionState := .Closed, lastSequenceNumber := 0 }, [], [])
      else if respId = some ServiceId.PublishResponse then
        let prm := (msg.response.bind (fun r => r.Body)).getD {}
        let newAcks := (prm.AvailableSequenceNumbers.getD []).map
          (fun n => { SubscriptionId := st.subscriptionId, SequenceNumber := n })
        -- `handlePublishCallbackAPI` only invokes subscriber callbacks
        -- (see the slot registry); no state modelled here changes.
        ({ st with
           acknowledgements := st.acknowledgements ++ newAcks,
           publishCount := st.publishCount + 1,
           lastSequenceNumber :=
             ((prm.NotificationMessage.bind (fun n => n.SequenceNumber))).getD 1 }, [], [])
      else if msg.request.ServiceId = ServiceId.TranslateBrowsePathsToNodeIdsRequest then
        let body := (msg.response.bind (fun r => r.Body)).getD {}
        if truthyNat (serviceResultCode body) then
          let items := markAll (serviceResultCode body) request.items
          ({ st with monitoredItems := updateAliases st.monitoredItems items }, [], items)
        else
          let items := applyTranslateResults request.items (body.TranslateResults.getD [])
          let st1 := { st with monitoredItems := updateAliases st.monitoredItems items }
          let (st2, sent) := createMonitoredItemsReq st1 items st1.subscriptionId
          (st2, sent, items)
      else if msg.request.ServiceId = ServiceId.CreateMonitoredItemsRequest then
        let body := (msg.response.bind (fun r => r.Body)).getD {}
        if truthyNat (serviceResultCode body) then
          let items := markAll (serviceResultCode body) request.items
          ({ st with monitoredItems := updateAliases st.monitoredItems items }, [], items)
        else
          let items := applyCreateResults request.items (body.CreateResults.getD [])
          ({ st with monitoredItems := updateAliases st.monitoredItems items }, [], items)
      else (st, [], [])

/-- Observation of one completed message: the drain iteration followed
by the publish-trigger effect (SubscriptionProvider), which sends one
PublishRequest whenever the publish counter changed to a non-zero
value while the subscription state is Open. -/
def observeSubscriptionResponse (st : SubscriptionInternals)
    (msg : CompletedEntry) :
    SubscriptionInternals × List RequestMessage × List MonitoredItem :=
  let oldCount := st.publishCount
  let (st1, sent1, items) := subscriptionDrainOne st msg
  if st1.publishCount ≠ oldCount ∧ st1.publishCount ≠ 0
      ∧ st1.subscriptionState = SubscriptionState.Open then
    let (st2, sent2) := publish st1
    (st2, sent1 ++ sent2, items)
  else (st1, sent1, items)

/-- The `sessionState` effect (SubscriptionProvider): whenever the
session state is anything other than SessionActive, the
acknowledgement queue and the last sequence number are cleared. -/
def sessionStateEffect (st : SubscriptionInternals)
    (sessionState : SessionState) : SubscriptionInternals :=
  match sessionState with
  | SessionState.SessionActive => st
  | _ => { st with acknowledgements := [], lastSequenceNumber := 0 }

/-! ### Lemmas about the subscription operations -/

theorem sendSub_acks (st : SubscriptionInternals) (m : RequestMessage)
    (r : Option InternalRequest) :
    (sendSub st m r).1.acknowledgements = st.acknowledgements := by
  unfold sendSub
  cases r with
  | none => rfl
  | some ir =>
      rcases ir with ⟨ih, sid, its⟩
      cases ih <;> rfl

theorem sendSub_subscriptionState (st : SubscriptionInternals)
    (m : RequestMessage) (r : Option InternalRequest) :
    (sendSub st m r).1.subscriptionState = st.subscriptionState := by
  unfold sendSub
  cases r with
  | none => rfl
  | some ir =>
      rcases ir with ⟨ih, sid, its⟩
      cases ih <;> rfl

theorem sendSub_publishCount (st : SubscriptionInternals)
    (m : RequestMessage) (r : Option InternalRequest) :
    (sendSub st m r).1.publishCount = st.publishCount := by
  unfold sendSub
  cases r with
  | none => rfl
  | some ir =>
      rcases ir with ⟨ih, sid, its⟩
      cases ih <;> rfl

theorem sendSub_monitoredItems (st : SubscriptionInternals)
    (m : RequestMessage) (r : Option InternalRequest) :
    (sendSub st m r).1.monitoredItems = st.monitoredItems := by
  unfold sendSub
  cases r with
  | none => rfl
  | some ir =>
      rcases ir with ⟨ih, sid, its⟩
      cases ih <;> rfl

theorem sendSub_sent (st : SubscriptionInternals) (m : RequestMessage)
    (r : Option InternalRequest) :
    (sendSub st m r).2 = [m] := by
  unfold sendSub
  cases r with
  | none => rfl
  | some ir =>
      rcases ir with ⟨ih, sid, its⟩
      cases ih <;> rfl

theorem createReq_acks (st : SubscriptionInternals)
    (items : List MonitoredItem) (subId : Option Nat) :
    (createMonitoredItemsReq st items subId).1.acknowledgements
      = st.acknowledgements := by
  unfold createMonitoredItemsReq
  rcases h : createScan st.samplingInterval items with ⟨reqs, batch⟩
  by_cases he : reqs.isEmpty <;> simp [h, he, sendSub_acks]

theorem createReq_subscriptionState (st : SubscriptionInternals)
    (items : List MonitoredItem) (subId : Option Nat) :
    (createMonitoredItemsReq st items subId).1.subscriptionState
      = st.subscriptionState := by
  unfold createMonitoredItemsReq
  rcases h : createScan st.samplingInterval items with ⟨reqs, batch⟩
  by_cases he : reqs.isEmpty <;> simp [h, he, sendSub_subscriptionState]

theorem createReq_publishCount (st : SubscriptionInternals)
    (items : List MonitoredItem) (subId : Option Nat) :
    (createMonitoredItemsReq st items subId).1.publishCount
      = st.publishCount := by
  unfold createMonitoredItemsReq
  rcases h : createScan st.samplingInterval items with ⟨reqs, batch⟩
  by_cases he : reqs.isEmpty <;> simp [h, he, sendSub_publishCount]

theorem createReq_sent_ids (st : SubscriptionInternals)
    (items : List MonitoredItem) (subId : Option Nat) :
    ∀ r ∈ (createMonitoredItemsReq st items subId).2,
      r.ServiceId = ServiceId.CreateMonitoredItemsRequest := by
  unfold createMonitoredItemsReq
  rcases h : createScan st.samplingInterval items with ⟨reqs, batch⟩
  by_cases he : reqs.isEmpty <;> simp [h, he, sendSub_sent]

theorem publish_acks (st : SubscriptionInternals) :
    (publish st).1.acknowledgements = st.acknowledgements :=
  sendSub_acks st _ none

theorem publish_sent (st : SubscriptionInternals) :
    (publish st).2 = [{ ServiceId := ServiceId.PublishRequest,
                        body := RequestBody.publish st.acknowledgements }] :=
  sendSub_sent st _ none

/-! ### Claim theorems: publish cycle -/

/-- C1.  Publish cycle: with subscriptionState Open and a tracked
caller handle, observing a SetPublishingModeResponse sends exactly one
PublishRequest and the state remains Open; observing a PublishResponse
appends one acknowledgement (current subscription id, sequence number)
per available sequence number to the acknowledgement queue and sends
exactly one further PublishRequest, the state remaining Open. -/
theorem publish_cycle_rearm (st : SubscriptionInternals) (sid ch : Nat)
    (ir : InternalRequest)
    (hopen : st.subscriptionState = SubscriptionState.Open)
    (hsid : st.subscriptionId = some sid)
    (htracked : mapGet ch st.requests = some ir) :
    (∀ req resp, resp.ServiceId = ServiceId.SetPublishingModeResponse →
      sentServiceIds (observeSubscriptionResponse st
          { callerHandle := ch, request := req, response := some resp }).2.1
        = [ServiceId.PublishRequest]
      ∧ (observeSubscriptionResponse st
          { callerHandle := ch, request := req, response := some resp }).1.subscriptionState
        = SubscriptionState.Open)
    ∧ (∀ req resp (ns : List Nat), resp.ServiceId = ServiceId.PublishResponse →
      (resp.Body.getD {}).AvailableSequenceNumbers = some ns →
      (observeSubscriptionResponse st
          { callerHandle := ch, request := req, response := some resp }).1.acknowledgements
        = st.acknowledgements
            ++ ns.map (fun n => { SubscriptionId := some sid, SequenceNumber := n })
      ∧ sentServiceIds (observeSubscriptionResponse st
          { callerHandle := ch, request := req, response := some resp }).2.1
        = [ServiceId.PublishRequest]
      ∧ (observeSubscriptionResponse st
          { callerHandle := ch, request := req, response := some resp }).1.subscriptionState
        = SubscriptionState.Open) := by
  constructor
  · intro req resp hresp
    have hacks : ∀ st' : SubscriptionInternals,
        (publish st').1.subscriptionState = st'.subscriptionState :=
      fun st' => sendSub_subscriptionState st' _ none
    simp [observeSubscriptionResponse, subscriptionDrainOne, htracked, hresp,
      hopen, publish_sent, sentServiceIds, hacks, sendSub_subscriptionState,
      publish, sendSub_sent]
  · intro req resp ns hresp hns
    rcases resp with ⟨rsid, rbody⟩
    cases hresp
    cases rbody with
    | none => simp at hns
    | some b =>
        simp only [Option.getD_some] at hns
        simp [observeSubscriptionResponse, subscriptionDrainOne, htracked,
          hopen, hsid, hns, publish_sent, sentServiceIds, publish_acks,
          sendSub_subscriptionState, publish, sendSub_acks, sendSub_sent]

/-- Concrete state for the C1 witness: subscription 7 Open, caller
handle 5 tracked, empty acknowledgement queue. -/
def c1State : SubscriptionInternals :=
  { subscriptionState := .Open, subscriptionId := some 7,
    requests := [(5, { internalHandle := some 5 })] }

/-- Witness for C1 at concrete inputs: one SetPublishingModeResponse
sends one PublishRequest; one PublishResponse with available sequence
numbers [1, 2] queues acknowledgements {7,1} and {7,2} and sends one
further PublishRequest. -/
theorem publish_cycle_rearm_witness :
    sentServiceIds (observeSubscriptionResponse c1State
        { callerHandle := 5,
          request := { ServiceId := .SetPublishingModeRequest },
          response := some { ServiceId := .SetPublishingModeResponse } }).2.1
      = [ServiceId.PublishRequest]
    ∧ (observeSubscriptionResponse c1State
        { callerHandle := 5,
          request := { ServiceId := .PublishRequest },
          response := some { ServiceId := .PublishResponse,
                             Body := some { AvailableSequenceNumbers := some [1, 2] } } }).1.acknowledgements
      = [{ SubscriptionId := some 7, SequenceNumber := 1 },
         { SubscriptionId := some 7, SequenceNumber := 2 }]
    ∧ sentServiceIds (observeSubscriptionResponse c1State
        { callerHandle := 5,
          request := { ServiceId := .PublishRequest },
          response := some { ServiceId := .PublishResponse,
                             Body := some { AvailableSequenceNumbers := some [1, 2] } } }).2.1
      = [ServiceId.PublishRequest] := by
  have h := publish_cycle_rearm c1State 7 5 { internalHandle := some 5 }
    rfl rfl rfl
  refine ⟨(h.1 { ServiceId := .SetPublishingModeRequest }
      { ServiceId := .SetPublishingModeResponse } rfl).1, ?_, ?_⟩
  · exact (h.2 { ServiceId := .PublishRequest }
      { ServiceId := .PublishResponse,
        Body := some { AvailableSequenceNumbers := some [1, 2] } } [1, 2] rfl rfl).1
  · exact (h.2 { ServiceId := .PublishRequest }
      { ServiceId := .PublishResponse,
        Body := some { AvailableSequenceNumbers := some [1, 2] } } [1, 2] rfl rfl).2.1

/-! ### Acknowledgement-queue lemmas -/

theorem drainOne_acks_extend (st : SubscriptionInternals) (msg : CompletedEntry)
    (hnd : msg.response.map (fun r => r.ServiceId)
      ≠ some ServiceId.DeleteSubscriptionsResponse) :
    ∃ tail, (subscriptionDrainOne st msg).1.acknowledgements
      = st.acknowledgements ++ tail := by
  unfold subscriptionDrainOne
  cases hfind : mapGet msg.callerHandle st.requests with
  | none => exact ⟨[], by simp⟩
  | some request =>
      simp only
      split_ifs <;>
        first
          | (exact absurd (by assumption) hnd)
          | (refine ⟨[], ?_⟩; simp [createReq_acks]; done)
          | (refine ⟨List.map
              (fun n => { SubscriptionId := st.subscriptionId, SequenceNumber := n })
              (((msg.response.bind (fun r => r.Body)).getD
                {}).AvailableSequenceNumbers.getD []), ?_⟩; simp; done)

theorem drainOne_sent_ids (st : SubscriptionInternals) (msg : CompletedEntry) :
    ∀ r ∈ (subscriptionDrainOne st msg).2.1,
      r.ServiceId = ServiceId.CreateMonitoredItemsRequest := by
  unfold subscriptionDrainOne
  cases hfind : mapGet msg.callerHandle st.requests with
  | none => simp
  | some request =>
      simp only
      split_ifs <;>
        first
          | (simp; done)
          | exact fun r hr => createReq_sent_ids _ _ _ r hr

theorem observe_acks_extend (st : SubscriptionInternals) (msg : CompletedEntry)
    (hnd : msg.response.map (fun r => r.ServiceId)
      ≠ some ServiceId.DeleteSubscriptionsResponse) :
    ∃ tail, (observeSubscriptionResponse st msg).1.acknowledgements
      = st.acknowledgements ++ tail := by
  obtain ⟨tail, ht⟩ := drainOne_acks_extend st msg hnd
  unfold observeSubscriptionResponse
  rcases hD : subscriptionDrainOne st msg with ⟨st1, sent1, items⟩
  rw [hD] at ht
  simp only [hD]
  split_ifs with hc
  · exact ⟨tail, by simpa [publish_acks] using ht⟩
  · exact ⟨tail, ht⟩

theorem observe_publish_body (st : SubscriptionInternals) (msg : CompletedEntry) :
    ∀ r ∈ (observeSubscriptionResponse st msg).2.1,
      r.ServiceId = ServiceId.PublishRequest →
      r.body = RequestBody.publish
        ((observeSubscriptionResponse st msg).1.acknowledgements) := by
  have hids := drainOne_sent_ids st msg
  unfold observeSubscriptionResponse
  rcases hD : subscriptionDrainOne st msg with ⟨st1, sent1, items⟩
  rw [hD] at hids
  simp only [hD] at hids ⊢
  split_ifs with hc
  · intro r hr hpub
    rw [publish_sent] at hr
    rcases List.mem_append.mp hr with hr1 | hr2
    · have h := hids r hr1
      rw [hpub] at h
      exact absurd h (by decide)
    · have hr2' := List.mem_singleton.mp hr2
      subst hr2'
      simp [publish_acks]
  · intro r hr hpub
    have h := hids r hr
    rw [hpub] at h
    exact absurd h (by decide)

/-- C10.  The acknowledgement queue is append-only under the publish
cycle: `publish` reads the queue without clearing it and the sent
PublishRequest carries the full queue; observing any completed message
other than a DeleteSubscriptionsResponse only appends to the queue,
and every PublishRequest sent as a result carries the whole resulting
queue (hence every previously queued acknowledgement); a tracked
DeleteSubscriptionsResponse empties the queue; and the session-state
effect empties it exactly when the session state is not
SessionActive. -/
theorem acknowledgements_monotone :
    (∀ st : SubscriptionInternals,
      (publish st).1.acknowledgements = st.acknowledgements
      ∧ (publish st).2 = [{ ServiceId := ServiceId.PublishRequest,
                            body := RequestBody.publish st.acknowledgements }])
    ∧ (∀ (st : SubscriptionInternals) (msg : CompletedEntry),
        msg.response.map (fun r => r.ServiceId)
            ≠ some ServiceId.DeleteSubscriptionsResponse →
        ∃ tail, (observeSubscriptionResponse st msg).1.acknowledgements
          = st.acknowledgements ++ tail)
    ∧ (∀ (st : SubscriptionInternals) (msg : CompletedEntry),
        ∀ r ∈ (observeSubscriptionResponse st msg).2.1,
          r.ServiceId = ServiceId.PublishRequest →
          r.body = RequestBody.publish
            ((observeSubscriptionResponse st msg).1.acknowledgements))
    ∧ (∀ (st : SubscriptionInternals) (msg : CompletedEntry)
          (ir : InternalRequest),
        mapGet msg.callerHandle st.requests = some ir →
        msg.response.map (fun r => r.ServiceId)
            = some ServiceId.DeleteSubscriptionsResponse →
        (observeSubscriptionResponse st msg).1.acknowledgements = [])
    ∧ (∀ (st : SubscriptionInternals) (s : SessionState),
        (s ≠ SessionState.SessionActive →
          (sessionStateEffect st s).acknowledgements = [])
        ∧ (s = SessionState.SessionActive → sessionStateEffect st s = st)) := by
  refine ⟨?_, ?_, ?_, ?_, ?_⟩
  · intro st
    exact ⟨publish_acks st, publish_sent st⟩
  · intro st msg h
    exact observe_acks_extend st msg h
  · intro st msg
    exact observe_publish_body st msg
  · intro st msg ir hfound hdel
    simp [observeSubscriptionResponse, subscriptionDrainOne, hfound, hdel]
  · intro st s
    refine ⟨fun h => ?_, fun h => ?_⟩
    · cases s <;> first | exact absurd rfl h | rfl
    · subst h
      rfl

/-- Concrete state for the C10 witness: one pending acknowledgement
{7, 9}, subscription Open, caller handle 5 tracked. -/
def c10State : SubscriptionInternals :=
  { subscriptionState := .Open, subscriptionId := some 7,
    acknowledgements := [{ SubscriptionId := some 7, SequenceNumber := 9 }],
    requests := [(5, { internalHandle := some 5 })] }

/-- Witness for C10 at concrete inputs. -/
theorem acknowledgements_monotone_witness :
    (publish c10State).1.acknowledgements
      = [{ SubscriptionId := some 7, SequenceNumber := 9 }]
    ∧ (∃ tail, (observeSubscriptionResponse c10State
        { callerHandle := 5,
          request := { ServiceId := .SetPublishingModeRequest },
          response := some { ServiceId := .SetPublishingModeResponse } }).1.acknowledgements
      = [{ SubscriptionId := some 7, SequenceNumber := 9 }] ++ tail)
    ∧ (observeSubscriptionResponse c10State
        { callerHandle := 5,
          request := { ServiceId := .DeleteSubscriptionsRequest },
          response := some { ServiceId := .DeleteSubscriptionsResponse } }).1.acknowledgements
      = []
    ∧ (sessionStateEffect c10State SessionState.NoSession).acknowledgements = [] := by
  have h := acknowledgements_monotone
  refine ⟨(h.1 c10State).1, ?_, ?_, ?_⟩
  · exact h.2.1 c10State
      { callerHandle := 5,
        request := { ServiceId := .SetPublishingModeRequest },
        response := some { ServiceId := .SetPublishingModeResponse } } (by decide)
  · exact h.2.2.2.1 c10State
      { callerHandle := 5,
        request := { ServiceId := .DeleteSubscriptionsRequest },
        response := some { ServiceId := .DeleteSubscriptionsResponse } }
      { internalHandle := some 5 } rfl rfl
  · exact (h.2.2.2.2 c10State SessionState.NoSession).1 (by decide)

/-! ### Positional application lemmas -/

theorem applyTranslateResults_pos (items : List MonitoredItem)
    (results : List BrowsePathResult) (i : Nat)
    (hi : i < items.length) (hr : i < results.length) :
    (applyTranslateResults items results)[i]? =
      some (if truthyNat results[i].StatusCode then
              { items[i] with creationError := results[i].StatusCode }
            else
              { items[i] with
                creationError := results[i].StatusCode,
                resolvedNodeId := (results[i].Targets.getD []).head?.bind
                  (fun t => t.TargetId) }) := by
  induction items generalizing results i with
  | nil => simp at hi
  | cons item rest ih =>
      cases results with
      | nil => simp at hr
      | cons result rs =>
          cases i with
          | zero =>
              by_cases hs : truthyNat result.StatusCode <;>
                simp [applyTranslateResults, hs]
          | succ n =>
              have hi' : n < rest.length := by simpa using hi
              have hr' : n < rs.length := by simpa using hr
              simpa [applyTranslateResults] using ih rs n hi' hr'

theorem applyCreateResults_pos (items : List MonitoredItem)
    (results : List MonitoredItemCreateResult) (i : Nat)
    (hi : i < items.length) (hr : i < results.length) :
    (applyCreateResults items results)[i]? =
      some (if truthyNat results[i].StatusCode then
              { items[i] with creationError := results[i].StatusCode }
            else
              { items[i] with
                creationError := results[i].StatusCode,
                monitoredItemId := results[i].MonitoredItemId }) := by
  induction items generalizing results i with
  | nil => simp at hi
  | cons item rest ih =>
      cases results with
      | nil => simp at hr
      | cons result rs =>
          cases i with
          | zero =>
              by_cases hs : truthyNat result.StatusCode <;>
                simp [applyCreateResults, hs]
          | succ n =>
              have hi' : n < rest.length := by simpa using hi
              have hr' : n < rs.length := by simpa using hr
              simpa [applyCreateResults] using ih rs n hi' hr'

/-- C5.  Positional batch application: for a tracked
TranslateBrowsePathsToNodeIds or CreateMonitoredItems exchange, a
non-zero batch-level service result marks every item of the request
batch with that code; otherwise result `i` is applied to batch item
`i`, setting `creationError` to the per-result status and, when that
status is falsy, `resolvedNodeId` from the first target (translate)
respectively `monitoredItemId` (create). -/
theorem batch_results_positional (st : SubscriptionInternals) (ch : Nat)
    (ir : InternalRequest) (req : RequestMessage) (resp : ResponseMessage)
    (htracked : mapGet ch st.requests = some ir) :
    (∀ c, req.ServiceId = ServiceId.TranslateBrowsePathsToNodeIdsRequest →
      resp.ServiceId = ServiceId.TranslateBrowsePathsToNodeIdsResponse →
      serviceResultCode (resp.Body.getD {}) = some c → c ≠ 0 →
      (subscriptionDrainOne st
          { callerHandle := ch, request := req, response := some resp }).2.2
        = ir.items.map (fun item => { item with creationError := some c }))
    ∧ (req.ServiceId = ServiceId.TranslateBrowsePathsToNodeIdsRequest →
      resp.ServiceId = ServiceId.TranslateBrowsePathsToNodeIdsResponse →
      truthyNat (serviceResultCode (resp.Body.getD {})) = false →
      ∀ i (hi : i < ir.items.length)
        (hr : i < ((resp.Body.getD {}).TranslateResults.getD []).length),
        (subscriptionDrainOne st
            { callerHandle := ch, request := req, response := some resp }).2.2[i]?
          = some (if truthyNat ((resp.Body.getD {}).TranslateResults.getD [])[i].StatusCode then
                    { ir.items[i] with
                      creationError := ((resp.Body.getD {}).TranslateResults.getD [])[i].StatusCode }
                  else
                    { ir.items[i] with
                      creationError := ((resp.Body.getD {}).TranslateResults.getD [])[i].StatusCode,
                      resolvedNodeId := (((resp.Body.getD {}).TranslateResults.getD [])[i].Targets.getD
                        []).head?.bind (fun t => t.TargetId) }))
    ∧ (∀ c, req.ServiceId = ServiceId.CreateMonitoredItemsRequest →
      resp.ServiceId = ServiceId.CreateMonitoredItemsResponse →
      serviceResultCode (resp.Body.getD {}) = some c → c ≠ 0 →
      (subscriptionDrainOne st
          { callerHandle := ch, request := req, response := some resp }).2.2
        = ir.items.map (fun item => { item with creationError := some c }))
    ∧ (req.ServiceId = ServiceId.CreateMonitoredItemsRequest →
      resp.ServiceId = ServiceId.CreateMonitoredItemsResponse →
      truthyNat (serviceResultCode (resp.Body.getD {})) = false →
      ∀ i (hi : i < ir.items.length)
        (hr : i < ((resp.Body.getD {}).CreateResults.getD []).length),
        (subscriptionDrainOne st
            { callerHandle := ch, request := req, response := some resp }).2.2[i]?
          = some (if truthyNat ((resp.Body.getD {}).CreateResults.getD [])[i].StatusCode then
                    { ir.items[i] with
                      creationError := ((resp.Body.getD {}).CreateResults.getD [])[i].StatusCode }
                  else
                    { ir.items[i] with
                      creationError := ((resp.Body.getD {}).CreateResults.getD [])[i].StatusCode,
                      monitoredItemId := ((resp.Body.getD {}).CreateResults.getD [])[i].MonitoredItemId })) := by
  refine ⟨?_, ?_, ?_, ?_⟩
  · intro c hreq hresp hcode hc0
    have ht : truthyNat (serviceResultCode (resp.Body.getD {})) = true := by
      simp [hcode, truthyNat, hc0]
    have ht2 : truthyNat (some c) = true := by simp [truthyNat, hc0]
    simp [subscriptionDrainOne, htracked, hreq, hresp, ht, ht2, hcode, markAll]
  · intro hreq hresp hcode i hi hr
    have hdrain : (subscriptionDrainOne st
        { callerHandle := ch, request := req, response := some resp }).2.2
        = applyTranslateResults ir.items ((resp.Body.getD {}).TranslateResults.getD []) := by
      simp [subscriptionDrainOne, htracked, hreq, hresp, hcode]
    rw [hdrain]
    exact applyTranslateResults_pos ir.items _ i hi hr
  · intro c hreq hresp hcode hc0
    have ht : truthyNat (serviceResultCode (resp.Body.getD {})) = true := by
      simp [hcode, truthyNat, hc0]
    have ht2 : truthyNat (some c) = true := by simp [truthyNat, hc0]
    simp [subscriptionDrainOne, htracked, hreq, hresp, ht, ht2, hcode, markAll]
  · intro hreq hresp hcode i hi hr
    have hdrain : (subscriptionDrainOne st
        { callerHandle := ch, request := req, response := some resp }).2.2
        = applyCreateResults ir.items ((resp.Body.getD {}).CreateResults.getD []) := by
      simp [subscriptionDrainOne, htracked, hreq, hresp, hcode]
    rw [hdrain]
    exact applyCreateResults_pos ir.items _ i hi hr

/-- Batch items for the C5 witness. -/
def c5ItemA : MonitoredItem := { nodeId := "a", resolvedNodeId := some "a", itemHandle := some 11 }

/-- Batch items for the C5 witness. -/
def c5ItemB : MonitoredItem := { nodeId := "b", resolvedNodeId := some "b", itemHandle := some 12 }

/-- Batch items for the C5 witness. -/
def c5ItemC : MonitoredItem := { nodeId := "c", resolvedNodeId := some "c", itemHandle := some 13 }

/-- The tracked internal request of the C5 witness. -/
def c5Request : InternalRequest :=
  { internalHandle := some 5, serviceId := some .CreateMonitoredItemsRequest,
    items := [c5ItemA, c5ItemB, c5ItemC] }

/-- Subscription state for the C5 witness. -/
def c5State : SubscriptionInternals := { requests := [(5, c5Request)] }

/-- The CreateMonitoredItems response of the C5 witness: statuses
[good, BadNodeIdUnknown, good] with ids 101 and 103. -/
def c5Response : ResponseMessage :=
  { ServiceId := .CreateMonitoredItemsResponse,
    Body := some { ResponseHeader := some {},
                   CreateResults := some
                     [{ StatusCode := some 0, MonitoredItemId := some 101 },
                      { StatusCode := some 2150891520 },
                      { StatusCode := some 0, MonitoredItemId := some 103 }] } }

/-- Witness for C5 at the claim's concrete 3-item example: item 0 gets
id 101, item 1 gets only a creation error, item 2 gets id 103. -/
theorem batch_results_positional_witness :
    (subscriptionDrainOne c5State
        { callerHandle := 5,
          request := { ServiceId := .CreateMonitoredItemsRequest },
          response := some c5Response }).2.2[0]?
      = some { c5ItemA with creationError := some 0, monitoredItemId := some 101 }
    ∧ (subscriptionDrainOne c5State
        { callerHandle := 5,
          request := { ServiceId := .CreateMonitoredItemsRequest },
          response := some c5Response }).2.2[1]?
      = some { c5ItemB with creationError := some 2150891520 }
    ∧ (subscriptionDrainOne c5State
        { callerHandle := 5,
          request := { ServiceId := .CreateMonitoredItemsRequest },
          response := some c5Response }).2.2[2]?
      = some { c5ItemC with creationError := some 0, monitoredItemId := some 103 } := by
  have h := (batch_results_positional c5State 5 c5Request
    { ServiceId := .CreateMonitoredItemsRequest } c5Response rfl).2.2.2
    rfl rfl (by decide)
  refine ⟨?_, ?_, ?_⟩
  · exact (h 0 (by decide) (by decide)).trans (by decide)
  · exact (h 1 (by decide) (by decide)).trans (by decide)
  · exact (h 2 (by decide) (by decide)).trans (by decide)

/-! ### Removal lemmas -/

theorem mapGet_mapDelete_of_none (k k' : Nat) (l : List (Nat × α))
    (h : mapGet k l = none) : mapGet k (mapDelete k' l) = none := by
  induction l with
  | nil => rfl
  | cons p rest ih =>
      by_cases hp : p.1 = k
      · simp [mapGet, hp] at h
      · have h' : mapGet k rest = none := by simpa [mapGet, hp] using h
        by_cases hq : p.1 = k'
        · simpa [mapDelete, List.filter_cons, hq] using ih h'
        · simpa [mapDelete, List.filter_cons, hq, mapGet, hp, bne_iff_ne] using ih h'

theorem foldDelete_preserves_none (items : List MonitoredItem)
    (m : List (Nat × MonitoredItem)) (k : Nat) (h : mapGet k m = none) :
    mapGet k (items.foldl
      (fun m item =>
        if truthyNat item.itemHandle then mapDelete (item.itemHandle.getD 0) m else m)
      m) = none := by
  induction items generalizing m with
  | nil => simpa using h
  | cons item rest ih =>
      simp only [List.foldl_cons]
      by_cases ht : truthyNat item.itemHandle
      · simp only [ht, if_true]
        exact ih _ (mapGet_mapDelete_of_none _ _ _ h)
      · simp only [ht, Bool.false_eq_true, if_false]
        exact ih _ h

theorem foldDelete_evicts (items : List MonitoredItem)
    (m : List (Nat × MonitoredItem)) :
    ∀ item ∈ items, truthyNat item.itemHandle = true →
      mapGet (item.itemHandle.getD 0)
        (items.foldl
          (fun m item =>
            if truthyNat item.itemHandle then mapDelete (item.itemHandle.getD 0) m else m)
          m) = none := by
  induction items generalizing m with
  | nil => intro item h; simp at h
  | cons hd rest ih =>
      intro item hmem ht
      rcases List.mem_cons.mp hmem with rfl | hmem'
      · simp only [List.foldl_cons, ht, if_true]
        exact foldDelete_preserves_none rest _ _ (mapGet_mapDelete _ _)
      · simp only [List.foldl_cons]
        exact ih _ item hmem' ht

theorem deleteScan_ids (items : List MonitoredItem) :
    (deleteScan items).1 = items.filterMap
      (fun i => if truthyNat i.monitoredItemId then some (i.monitoredItemId.getD 0)
                else none) := by
  induction items with
  | nil => rfl
  | cons item rest ih =>
      by_cases h : truthyNat item.monitoredItemId <;>
        simp [deleteScan, h, ih, List.filterMap_cons]

theorem deleteScan_items (items : List MonitoredItem) :
    (deleteScan items).2 = items.map
      (fun i => if truthyNat i.monitoredItemId then { i with monitoredItemId := none }
                else i) := by
  induction items with
  | nil => rfl
  | cons item rest ih =>
      by_cases h : truthyNat item.monitoredItemId <;> simp [deleteScan, h, ih]

theorem deleteReq_monitoredItems (st : SubscriptionInternals)
    (items : List MonitoredItem) (sid : Nat) :
    (deleteMonitoredItemsReq st items sid).1.monitoredItems
      = st.monitoredItems := by
  unfold deleteMonitoredItemsReq
  rcases h : deleteScan items with ⟨ids, its⟩
  by_cases he : ids.isEmpty <;> simp [h, he, sendSub_monitoredItems]

theorem deleteReq_items (st : SubscriptionInternals)
    (items : List MonitoredItem) (sid : Nat) :
    (deleteMonitoredItemsReq st items sid).2.1 = (deleteScan items).2 := by
  unfold deleteMonitoredItemsReq
  rcases h : deleteScan items with ⟨ids, its⟩
  by_cases he : ids.isEmpty <;> simp [h, he]

theorem deleteReq_sent_empty (st : SubscriptionInternals)
    (items : List MonitoredItem) (sid : Nat)
    (h : (deleteScan items).1 = []) :
    (deleteMonitoredItemsReq st items sid).2.2 = [] := by
  unfold deleteMonitoredItemsReq
  rcases hs : deleteScan items with ⟨ids, its⟩
  rw [hs] at h
  simp at h
  simp [hs, h]

theorem deleteReq_sent_nonempty (st : SubscriptionInternals)
    (items : List MonitoredItem) (sid : Nat)
    (h : (deleteScan items).1 ≠ []) :
    (deleteMonitoredItemsReq st items sid).2.2
      = [{ ServiceId := ServiceId.DeleteMonitoredItemsRequest,
           body := RequestBody.deleteMonitoredItems sid (deleteScan items).1 }] := by
  unfold deleteMonitoredItemsReq
  rcases hs : deleteScan items with ⟨ids, its⟩
  rw [hs] at h
  simp only at h
  have he : ids.isEmpty = false := by
    cases ids with
    | nil => exact absurd rfl h
    | cons a as => rfl
  simp [hs, he, sendSub_sent]

/-- C8 counterexample item: holds server-assigned id 5 and item
handle 1. -/
def c8Item : MonitoredItem :=
  { nodeId := "n", itemHandle := some 1, monitoredItemId := some 5 }

/-- C8 counterexample state: the item is registered under its
handle. -/
def c8State : SubscriptionInternals := { monitoredItems := [(1, c8Item)] }

/-- C8 counterexample: calling `unsubscribe` on an item that holds a
server-assigned monitored-item id sends NO request at all (the
DeleteMonitoredItemsRequest is commented out in the source), refuting
the claim that every such call collects the item into a
DeleteMonitoredItemsRequest that is sent. -/
theorem unsubscribe_sends_no_delete_cx :
    (unsubscribe c8State [c8Item]).2 = []
    ∧ truthyNat c8Item.monitoredItemId = true :=
  ⟨rfl, rfl⟩

/-- C8 (amended).  `removeMonitoredItems` evicts the items from the
subscription's map, collects the items holding a server-assigned id
into one DeleteMonitoredItemsRequest (sent only when there is at least
one) and clears those ids immediately on send; `removeMonitoredItem`
sends the delete for the indexed item and clears its id but does NOT
evict it from the map; `unsubscribe` only evicts the items from the
map and sends nothing, clearing no id. -/
theorem removal_behavior_amended :
    (∀ (st : SubscriptionInternals) (items : List MonitoredItem),
      (unsubscribe st items).2 = []
      ∧ ∀ item ∈ items, truthyNat item.itemHandle = true →
          mapGet (item.itemHandle.getD 0) (unsubscribe st items).1.monitoredItems
            = none)
    ∧ (∀ (st : SubscriptionInternals) (items : List MonitoredItem) (sid : Nat),
      (removeMonitoredItems st items sid).2.1
        = items.map (fun i => if truthyNat i.monitoredItemId then
            { i with monitoredItemId := none } else i)
      ∧ ((∃ i ∈ items, truthyNat i.monitoredItemId = true) →
          (removeMonitoredItems st items sid).2.2
            = [{ ServiceId := ServiceId.DeleteMonitoredItemsRequest,
                 body := RequestBody.deleteMonitoredItems sid
                   (items.filterMap (fun i =>
                     if truthyNat i.monitoredItemId then
                       some (i.monitoredItemId.getD 0) else none)) }])
      ∧ ((∀ i ∈ items, truthyNat i.monitoredItemId = false) →
          (removeMonitoredItems st items sid).2.2 = [])
      ∧ (∀ item ∈ items, truthyNat item.itemHandle = true →
          mapGet (item.itemHandle.getD 0)
            (removeMonitoredItems st items sid).1.monitoredItems = none))
    ∧ (∀ (st : SubscriptionInternals) (items : List MonitoredItem)
          (index sid : Nat) (item : MonitoredItem),
      items[index]? = some item →
      (removeMonitoredItem st items index sid).1.monitoredItems
          = st.monitoredItems
      ∧ (truthyNat item.monitoredItemId = true →
          (removeMonitoredItem st items index sid).2.2
            = [{ ServiceId := ServiceId.DeleteMonitoredItemsRequest,
                 body := RequestBody.deleteMonitoredItems sid
                   [item.monitoredItemId.getD 0] }]
          ∧ (removeMonitoredItem st items index sid).2.1
            = some { item with monitoredItemId := none })) := by
  refine ⟨?_, ?_, ?_⟩
  · intro st items
    exact ⟨rfl, fun item hmem ht => foldDelete_evicts items st.monitoredItems item hmem ht⟩
  · intro st items sid
    refine ⟨?_, ?_, ?_, ?_⟩
    · rw [removeMonitoredItems, deleteReq_items, deleteScan_items]
    · intro ⟨i, hmem, hi⟩
      have hmemF : i.monitoredItemId.getD 0 ∈ items.filterMap
          (fun i => if truthyNat i.monitoredItemId then
            some (i.monitoredItemId.getD 0) else none) :=
        List.mem_filterMap.mpr ⟨i, hmem, by simp [hi]⟩
      have hne : (deleteScan items).1 ≠ [] := by
        rw [deleteScan_ids]
        exact List.ne_nil_of_mem hmemF
      rw [removeMonitoredItems, deleteReq_sent_nonempty _ _ _ hne, deleteScan_ids]
    · intro hall
      have hnil : (deleteScan items).1 = [] := by
        rw [deleteScan_ids]
        exact List.filterMap_eq_nil_iff.mpr (fun i hmem => by simp [hall i hmem])
      rw [removeMonitoredItems, deleteReq_sent_empty _ _ _ hnil]
    · intro item hmem ht
      rw [removeMonitoredItems, deleteReq_monitoredItems]
      exact foldDelete_evicts items st.monitoredItems item hmem ht
  · intro st items index sid item hget
    have hlen : items.length > 0 := by
      cases items with
      | nil => simp at hget
      | cons a as => simp
    unfold removeMonitoredItem
    simp only [if_pos hlen, hget]
    unfold deleteMonitoredItemReq
    by_cases ht : truthyNat item.monitoredItemId
    · simp [ht, sendSub, HandleFactory.increment]
    · simp [ht]

/-- Witness for C8 (amended) at concrete inputs. -/
theorem removal_behavior_amended_witness :
    mapGet 1 (unsubscribe c8State [c8Item]).1.monitoredItems = none
    ∧ (removeMonitoredItems c8State [c8Item] 7).2.2
      = [{ ServiceId := ServiceId.DeleteMonitoredItemsRequest,
           body := RequestBody.deleteMonitoredItems 7 [5] }]
    ∧ (removeMonitoredItem c8State [c8Item] 0 7).1.monitoredItems
      = c8State.monitoredItems := by
  have h := removal_behavior_amended
  refine ⟨?_, ?_, ?_⟩
  · exact (h.1 c8State [c8Item]).2 c8Item (by decide) rfl
  · exact ((h.2.1 c8State [c8Item] 7).2.1 ⟨c8Item, by decide, rfl⟩).trans (by decide)
  · exact (h.2.2 c8State [c8Item] 0 7 c8Item rfl).1

/-! ### Subscription slot registry (`SubscriptionAPI`) -/

/-- `MAX_SUBSCRIPTIONS` (SubscriptionAPI). -/
def MAX_SUBSCRIPTIONS : Nat := 10

/-- `INVALID_SUBSCRIPTION_ID` (SubscriptionAPI). -/
def INVALID_SUBSCRIPTION_ID : Int := -1

/-- `ERROR_NO_AVAILABLE_SUBSCRIPTION` (SubscriptionAPI). -/
def ERROR_NO_AVAILABLE_SUBSCRIPTION : Int := -2

/-- One slot of `activeSubscriptions` (and the caller's
`subscriptionContext` record).  The publish callback and its context
are opaque references, modelled as identifiers. -/
structure SlotContext where
  subscriptionID : Int
  publishCB : Option Nat := none
  publishCtx : Option Nat := none
deriving DecidableEq, Repr

/-- The module-level mutable state of `SubscriptionAPI`: the slot
table and the global monotonic subscription-id counter (initially
1). -/
structure SlotRegistry where
  activeSubscriptions : List SlotContext
  globalSubscriptionId : Int
deriving DecidableEq, Repr

/-- The initial slot registry: `MAX_SUBSCRIPTIONS` slots holding the
invalid sentinel, counter 1. -/
def initialSlotRegistry : SlotRegistry :=
  { activeSubscriptions :=
      List.replicate MAX_SUBSCRIPTIONS { subscriptionID := INVALID_SUBSCRIPTION_ID },
    globalSubscriptionId := 1 }

/-- The scan loop of `createSubscriptionAPI`: finds the first slot
holding the invalid sentinel and stores the caller's callback, context
and the global id there; `none` when every slot is occupied. -/
def createSlotScan (cb ctx : Option Nat) (gid : Int) :
    List SlotContext → Option (List SlotContext)
  | [] => none
  | slot :: rest =>
      if slot.subscriptionID = INVALID_SUBSCRIPTION_ID then
        some ({ subscriptionID := gid, publishCB := cb, publishCtx := ctx } :: rest)
      else (createSlotScan cb ctx gid rest).map (fun l => slot :: l)

/-- `createSubscriptionAPI`: on a free slot, stores callback/context,
assigns the next global subscription id (also written back to the
caller's request record), increments the counter, invokes the
underlying create side effect and returns 1; with no free slot,
returns `ERROR_NO_AVAILABLE_SUBSCRIPTION` and changes nothing.
Returns (code, new registry, updated request record, whether the
underlying create ran). -/
def createSubscriptionAPI (st : SlotRegistry)
    (subscriptionRequest : SlotContext) :
    Int × SlotRegistry × SlotContext × Bool :=
  match createSlotScan subscriptionRequest.publishCB subscriptionRequest.publishCtx
      st.globalSubscriptionId st.activeSubscriptions with
  | some slots =>
      (1,
       { activeSubscriptions := slots,
         globalSubscriptionId := st.globalSubscriptionId + 1 },
       { subscriptionRequest with subscriptionID := st.globalSubscriptionId },
       true)
  | none => (ERROR_NO_AVAILABLE_SUBSCRIPTION, st, subscriptionRequest, false)

theorem createSlotScan_none (cb ctx : Option Nat) (gid : Int)
    (l : List SlotContext)
    (h : ∀ s ∈ l, s.subscriptionID ≠ INVALID_SUBSCRIPTION_ID) :
    createSlotScan cb ctx gid l = none := by
  induction l with
  | nil => rfl
  | cons slot rest ih =>
      have hs := h slot (by simp)
      simp only [createSlotScan, if_neg hs]
      rw [ih (fun s hm => h s (by simp [hm]))]
      rfl

theorem createSlotScan_set (cb ctx : Option Nat) (gid : Int)
    (l : List SlotContext) (j : Nat) (hj : j < l.length)
    (hfree : (l.get ⟨j, hj⟩).subscriptionID = INVALID_SUBSCRIPTION_ID)
    (hbefore : ∀ k (hk : k < j),
      (l.get ⟨k, by omega⟩).subscriptionID ≠ INVALID_SUBSCRIPTION_ID) :
    createSlotScan cb ctx gid l
      = some (l.set j { subscriptionID := gid, publishCB := cb, publishCtx := ctx }) := by
  induction l generalizing j with
  | nil => simp at hj
  | cons slot rest ih =>
      cases j with
      | zero =>
          have hfree0 : slot.subscriptionID = INVALID_SUBSCRIPTION_ID := hfree
          simp [createSlotScan, hfree0]
      | succ n =>
          have hs : slot.subscriptionID ≠ INVALID_SUBSCRIPTION_ID := by
            have h0 := hbefore 0 (by omega)
            simpa using h0
          have hj' : n < rest.length := by simpa using hj
          have hfree' : (rest.get ⟨n, hj'⟩).subscriptionID
              = INVALID_SUBSCRIPTION_ID := by
            simpa using hfree
          have hbefore' : ∀ k (hk : k < n),
              (rest.get ⟨k, by omega⟩).subscriptionID
                ≠ INVALID_SUBSCRIPTION_ID := by
            intro k hk
            have hkk := hbefore (k + 1) (by omega)
            simpa using hkk
          rw [createSlotScan, if_neg hs, ih n hj' hfree' hbefore']
          rfl

/-- C9.  Slot capacity: with every slot of the (length-10) table
occupied, `createSubscriptionAPI` returns the distinct
"no available subscription" error code and changes nothing (no slot,
no counter, no side effect); with a free (invalid-sentinel) slot, the
first such slot receives the caller's callback, context and the next
value of the global monotonic subscription-id counter (also written to
the caller's record), the counter is incremented, the underlying
create side effect is invoked, and 1 (success) is returned. -/
theorem slot_capacity (st : SlotRegistry) (r : SlotContext)
    (hlen : st.activeSubscriptions.length = MAX_SUBSCRIPTIONS) :
    ((∀ s ∈ st.activeSubscriptions, s.subscriptionID ≠ INVALID_SUBSCRIPTION_ID) →
      createSubscriptionAPI st r
        = (ERROR_NO_AVAILABLE_SUBSCRIPTION, st, r, false))
    ∧ (∀ j (hj : j < st.activeSubscriptions.length),
        (st.activeSubscriptions.get ⟨j, hj⟩).subscriptionID
            = INVALID_SUBSCRIPTION_ID →
        (∀ k (hk : k < j), (st.activeSubscriptions.get ⟨k, by omega⟩).subscriptionID
            ≠ INVALID_SUBSCRIPTION_ID) →
        createSubscriptionAPI st r
          = (1,
             { activeSubscriptions := st.activeSubscriptions.set j
                 { subscriptionID := st.globalSubscriptionId,
                   publishCB := r.publishCB, publishCtx := r.publishCtx },
               globalSubscriptionId := st.globalSubscriptionId + 1 },
             { r with subscriptionID := st.globalSubscriptionId }, true))
    ∧ MAX_SUBSCRIPTIONS = 10
    ∧ initialSlotRegistry.activeSubscriptions.length = MAX_SUBSCRIPTIONS
    ∧ (∀ s ∈ initialSlotRegistry.activeSubscriptions,
        s.subscriptionID = INVALID_SUBSCRIPTION_ID)
    ∧ ERROR_NO_AVAILABLE_SUBSCRIPTION ≠ 1 := by
  refine ⟨?_, ?_, rfl, rfl, ?_, by decide⟩
  · intro h
    unfold createSubscriptionAPI
    rw [createSlotScan_none _ _ _ _ h]
  · intro j hj hfree hbefore
    unfold createSubscriptionAPI
    rw [createSlotScan_set _ _ _ _ j hj hfree hbefore]
  · intro s hs
    have := List.eq_of_mem_replicate (by simpa [initialSlotRegistry] using hs)
    rw [this]

/-- A fully occupied slot registry for the C9 witness. -/
def c9FullRegistry : SlotRegistry :=
  { activeSubscriptions := List.replicate 10 { subscriptionID := 3 },
    globalSubscriptionId := 11 }

/-- Witness for C9 at concrete inputs: the full table rejects with the
capacity error and is unchanged; the fresh table accepts into slot 0
with global id 1 and increments the counter. -/
theorem slot_capacity_witness :
    createSubscriptionAPI c9FullRegistry { subscriptionID := 0 }
      = (ERROR_NO_AVAILABLE_SUBSCRIPTION, c9FullRegistry,
         { subscriptionID := 0 }, false)
    ∧ createSubscriptionAPI initialSlotRegistry
        { subscriptionID := 0, publishCB := some 4 }
      = (1,
         { activeSubscriptions := initialSlotRegistry.activeSubscriptions.set 0
             { subscriptionID := 1, publishCB := some 4, publishCtx := none },
           globalSubscriptionId := 2 },
         { subscriptionID := 1, publishCB := some 4 }, true) := by
  have h1 := (slot_capacity c9FullRegistry { subscriptionID := 0 }
    (by decide)).1 (by decide)
  have h2 := (slot_capacity initialSlotRegistry
    { subscriptionID := 0, publishCB := some 4 } (by decide)).2.1 0
    (by decide) (by decide) (fun k hk => absurd hk (Nat.not_lt_zero k))
  exact ⟨h1, h2⟩
